import Mathlib

/-!
Valhalla: directed-edge builder and costing factory.

A shallow embedding of

* `src/src/mjolnir/directededgebuilder.cc` (`DirectedEdgeBuilder::DirectedEdgeBuilder`),
* `src/valhalla/sif/costfactory.h` (`CostFactory`),

followed by theorems about them.  Unsigned 32-bit quantities are natural
numbers; none of the arithmetic embedded here can overflow (`std::max` and
bitwise or of mask constants only).
-/

namespace valhalla

namespace baldr

/-- Modelled from the spec: `baldr::Use` (graphconstants.h) is not part of the
sources at hand.  The four enumerators named by the builder are kept, every
other use category is `kOther code`. -/
inductive Use where
  | kSteps
  | kFerry
  | kRailFerry
  | kConstruction
  | kOther (code : Nat)
  deriving DecidableEq, Repr

/-- Modelled from the spec: `baldr::Surface` (graphconstants.h) is not part of
the sources at hand.  Only `kImpassable` is named by the builder. -/
inductive Surface where
  | kImpassable
  | kOther (code : Nat)
  deriving DecidableEq, Repr

/-- Modelled from the spec: `baldr::SpeedType`, "tagged" or "classified". -/
inductive SpeedType where
  | kTagged
  | kClassified
  deriving DecidableEq, Repr

/-- The enum `baldr::RoadClass` through its underlying unsigned value: smaller
is more significant, and `operator<` on the enum compares these values. -/
abbrev RoadClass := Nat

/-- The 64-bit value of a `baldr::GraphId`. -/
abbrev GraphId := Nat

/-- Constants of graphconstants.h that the builder reads and whose values are
not part of the sources at hand: the eleven access-mask constants and the
`RoadClass::kInvalid` sentinel.  They are a parameter of the embedding. -/
structure GraphConstants where
  kAutoAccess : Nat
  kPedestrianAccess : Nat
  kBicycleAccess : Nat
  kTruckAccess : Nat
  kEmergencyAccess : Nat
  kTaxiAccess : Nat
  kBusAccess : Nat
  kHOVAccess : Nat
  kWheelchairAccess : Nat
  kMopedAccess : Nat
  kMotorcycleAccess : Nat
  kInvalid : RoadClass
  deriving Repr

/-- The eleven access constants, in the order of `GraphConstants`. -/
def GraphConstants.accessConstants (k : GraphConstants) : List Nat :=
  [k.kAutoAccess, k.kPedestrianAccess, k.kBicycleAccess, k.kTruckAccess,
   k.kEmergencyAccess, k.kTaxiAccess, k.kBusAccess, k.kHOVAccess,
   k.kWheelchairAccess, k.kMopedAccess, k.kMotorcycleAccess]

/-- What the spec says of the access constants ("each a union of per-mode
bits"): every constant is a single bit and no two constants are the same. -/
structure GraphConstants.ModeBits (k : GraphConstants) : Prop where
  single : ∀ c ∈ k.accessConstants, ∃ i : Nat, c = 2 ^ i
  distinct : k.accessConstants.Nodup

/-- A mode is allowed by an access mask when the and of the mask with the
constant of the mode is not zero. -/
def hasAccess (mask bit : Nat) : Bool :=
  mask &&& bit != 0

/-- Modelled from the spec: the record `baldr::DirectedEdge` (directededge.h is
not part of the sources at hand), reduced to the attributes the builder
writes, each under the name of its getter. -/
structure DirectedEdge where
  endnode : GraphId
  use : Use
  speed : Nat
  truck_speed : Nat
  length : Nat
  toll : Bool
  bike_network : Bool
  truck_route : Bool
  hierarchy_roadclass : RoadClass
  dest_only : Bool
  dest_only_hgv : Bool
  dismount : Bool
  use_sidepath : Bool
  sac_scale : Nat
  surface : Surface
  tunnel : Bool
  roundabout : Bool
  bridge : Bool
  indoor : Bool
  link : Bool
  hov_type : Nat
  classification : RoadClass
  localedgeidx : Nat
  restrictions : Nat
  traffic_signal : Bool
  stop_sign : Bool
  yield_sign : Bool
  deadend : Bool
  sidewalk_left : Bool
  sidewalk_right : Bool
  speed_type : SpeedType
  lit : Bool
  forward : Bool
  forwardaccess : Nat
  reverseaccess : Nat
  deriving Repr

namespace DirectedEdge

/-!
Modelled from the spec: the setters of `baldr::DirectedEdge` are defined in
directededge.cc, which is not part of the sources at hand.  Each one stores its
argument in the attribute it is named after and leaves the others alone.
-/

/-- Modelled from the spec: `set_endnode` stores the end node. -/
def set_endnode (d : DirectedEdge) (endnode : GraphId) : DirectedEdge :=
  { d with endnode := endnode }

/-- Modelled from the spec: `set_use` stores the use category. -/
def set_use (d : DirectedEdge) (use : Use) : DirectedEdge :=
  { d with use := use }

/-- Modelled from the spec: `set_speed` stores the speed (kph). -/
def set_speed (d : DirectedEdge) (speed : Nat) : DirectedEdge :=
  { d with speed := speed }

/-- Modelled from the spec: `set_truck_speed` stores the truck speed (kph). -/
def set_truck_speed (d : DirectedEdge) (speed : Nat) : DirectedEdge :=
  { d with truck_speed := speed }

/-- Modelled from the spec: `set_length(length, should_error)` stores the
length; the spec gives the encoder no failure ("never rejected"), so the
second argument has no effect in this model. -/
def set_length (d : DirectedEdge) (length : Nat) (_should_error : Bool) : DirectedEdge :=
  { d with length := length }

/-- Modelled from the spec: `set_toll` stores the toll flag. -/
def set_toll (d : DirectedEdge) (toll : Bool) : DirectedEdge :=
  { d with toll := toll }

/-- Modelled from the spec: `set_bike_network` stores the bike-network flag. -/
def set_bike_network (d : DirectedEdge) (bike_network : Bool) : DirectedEdge :=
  { d with bike_network := bike_network }

/-- Modelled from the spec: `set_truck_route` stores the truck-route flag. -/
def set_truck_route (d : DirectedEdge) (truck_route : Bool) : DirectedEdge :=
  { d with truck_route := truck_route }

/-- Modelled from the spec: `set_hierarchy_roadclass` stores the hierarchy
road class. -/
def set_hierarchy_roadclass (d : DirectedEdge) (rc : RoadClass) : DirectedEdge :=
  { d with hierarchy_roadclass := rc }

/-- Modelled from the spec: `set_dest_only` stores the destination-only flag. -/
def set_dest_only (d : DirectedEdge) (destonly : Bool) : DirectedEdge :=
  { d with dest_only := destonly }

/-- Modelled from the spec: `set_dest_only_hgv` stores the HGV destination-only
flag. -/
def set_dest_only_hgv (d : DirectedEdge) (destonly_hgv : Bool) : DirectedEdge :=
  { d with dest_only_hgv := destonly_hgv }

/-- Modelled from the spec: `set_dismount` stores the dismount flag. -/
def set_dismount (d : DirectedEdge) (dismount : Bool) : DirectedEdge :=
  { d with dismount := dismount }

/-- Modelled from the spec: `set_use_sidepath` stores the sidepath flag. -/
def set_use_sidepath (d : DirectedEdge) (use_sidepath : Bool) : DirectedEdge :=
  { d with use_sidepath := use_sidepath }

/-- Modelled from the spec: `set_sac_scale` stores the SAC scale. -/
def set_sac_scale (d : DirectedEdge) (sac_scale : Nat) : DirectedEdge :=
  { d with sac_scale := sac_scale }

/-- Modelled from the spec: `set_surface` stores the surface. -/
def set_surface (d : DirectedEdge) (surface : Surface) : DirectedEdge :=
  { d with surface := surface }

/-- Modelled from the spec: `set_tunnel` stores the tunnel flag. -/
def set_tunnel (d : DirectedEdge) (tunnel : Bool) : DirectedEdge :=
  { d with tunnel := tunnel }

/-- Modelled from the spec: `set_roundabout` stores the roundabout flag. -/
def set_roundabout (d : DirectedEdge) (roundabout : Bool) : DirectedEdge :=
  { d with roundabout := roundabout }

/-- Modelled from the spec: `set_bridge` stores the bridge flag. -/
def set_bridge (d : DirectedEdge) (bridge : Bool) : DirectedEdge :=
  { d with bridge := bridge }

/-- Modelled from the spec: `set_indoor` stores the indoor flag. -/
def set_indoor (d : DirectedEdge) (indoor : Bool) : DirectedEdge :=
  { d with indoor := indoor }

/-- Modelled from the spec: `set_link` stores the link flag. -/
def set_link (d : DirectedEdge) (link : Bool) : DirectedEdge :=
  { d with link := link }

/-- Modelled from the spec: `set_hov_type` stores the HOV type. -/
def set_hov_type (d : DirectedEdge) (hov_type : Nat) : DirectedEdge :=
  { d with hov_type := hov_type }

/-- Modelled from the spec: `set_classification` stores the road class. -/
def set_classification (d : DirectedEdge) (roadclass : RoadClass) : DirectedEdge :=
  { d with classification := roadclass }

/-- Modelled from the spec: `set_localedgeidx` stores the local edge index. -/
def set_localedgeidx (d : DirectedEdge) (idx : Nat) : DirectedEdge :=
  { d with localedgeidx := idx }

/-- Modelled from the spec: `set_restrictions` stores the restriction mask. -/
def set_restrictions (d : DirectedEdge) (mask : Nat) : DirectedEdge :=
  { d with restrictions := mask }

/-- Modelled from the spec: `set_traffic_signal` stores the signal flag. -/
def set_traffic_signal (d : DirectedEdge) (signal : Bool) : DirectedEdge :=
  { d with traffic_signal := signal }

/-- Modelled from the spec: `set_stop_sign` stores the stop-sign flag. -/
def set_stop_sign (d : DirectedEdge) (sign : Bool) : DirectedEdge :=
  { d with stop_sign := sign }

/-- Modelled from the spec: `set_yield_sign` stores the yield-sign flag. -/
def set_yield_sign (d : DirectedEdge) (sign : Bool) : DirectedEdge :=
  { d with yield_sign := sign }

/-- Modelled from the spec: `set_deadend` stores the deadend flag. -/
def set_deadend (d : DirectedEdge) (d_end : Bool) : DirectedEdge :=
  { d with deadend := d_end }

/-- Modelled from the spec: `set_sidewalk_left` stores the left sidewalk flag. -/
def set_sidewalk_left (d : DirectedEdge) (sidewalk : Bool) : DirectedEdge :=
  { d with sidewalk_left := sidewalk }

/-- Modelled from the spec: `set_sidewalk_right` stores the right sidewalk
flag. -/
def set_sidewalk_right (d : DirectedEdge) (sidewalk : Bool) : DirectedEdge :=
  { d with sidewalk_right := sidewalk }

/-- Modelled from the spec: `set_speed_type` stores the speed type. -/
def set_speed_type (d : DirectedEdge) (speed_type : SpeedType) : DirectedEdge :=
  { d with speed_type := speed_type }

/-- Modelled from the spec: `set_lit` stores the lit flag. -/
def set_lit (d : DirectedEdge) (lit : Bool) : DirectedEdge :=
  { d with lit := lit }

/-- Modelled from the spec: `set_forward` stores the direction flag. -/
def set_forward (d : DirectedEdge) (forward : Bool) : DirectedEdge :=
  { d with forward := forward }

/-- Modelled from the spec: `set_forwardaccess` stores the forward mask. -/
def set_forwardaccess (d : DirectedEdge) (modes : Nat) : DirectedEdge :=
  { d with forwardaccess := modes }

/-- Modelled from the spec: `set_reverseaccess` stores the reverse mask. -/
def set_reverseaccess (d : DirectedEdge) (modes : Nat) : DirectedEdge :=
  { d with reverseaccess := modes }

end DirectedEdge

end baldr

namespace mjolnir

open baldr

/-- Modelled from the spec: the way attributes `OSMWay` (osmway.h is not part
of the sources at hand), reduced to the getters the builder calls, each under
the name of the getter. -/
structure OSMWay where
  ferry : Bool
  rail : Bool
  use : Use
  toll : Bool
  truck_route : Bool
  destination_only : Bool
  no_thru_traffic : Bool
  destination_only_hgv : Bool
  dismount : Bool
  use_sidepath : Bool
  sac_scale : Nat
  surface : Surface
  tunnel : Bool
  roundabout : Bool
  bridge : Bool
  indoor : Bool
  link : Bool
  hov_type : Nat
  sidewalk_left : Bool
  sidewalk_right : Bool
  tagged_speed : Bool
  forward_tagged_speed : Bool
  backward_tagged_speed : Bool
  lit : Bool
  auto_forward : Bool
  auto_backward : Bool
  truck_forward : Bool
  truck_backward : Bool
  bus_forward : Bool
  bus_backward : Bool
  bike_forward : Bool
  bike_backward : Bool
  moped_forward : Bool
  moped_backward : Bool
  motorcycle_forward : Bool
  motorcycle_backward : Bool
  emergency_forward : Bool
  emergency_backward : Bool
  hov_forward : Bool
  hov_backward : Bool
  taxi_forward : Bool
  taxi_backward : Bool
  pedestrian_forward : Bool
  pedestrian_backward : Bool
  wheelchair_tag : Bool
  wheelchair : Bool
  deriving Repr

/-- The constant `kMinimumEdgeLength` of directededgebuilder.cc. -/
def kMinimumEdgeLength : Nat := 1

/-- The statement `if (c) { mask |= bit; }`. -/
def orIf (c : Bool) (mask bit : Nat) : Nat :=
  if c then mask ||| bit else mask

/-- The constructor `DirectedEdgeBuilder::DirectedEdgeBuilder` of
directededgebuilder.cc, statement by statement.  `k` holds the constants of
graphconstants.h and `init` is the default-constructed `DirectedEdge()` the
constructor starts from.  The `LOG_DEBUG` call changes no state and is left
out. -/
def DirectedEdgeBuilder (k : GraphConstants) (init : DirectedEdge) (way : OSMWay)
    (endnode : GraphId) (forward : Bool) (length speed truck_speed : Nat)
    (use : Use) (rc : RoadClass) (localidx : Nat)
    (signal stop_sign yield_sign minor : Bool) (restrictions bike_network : Nat)
    (reclass_ferry : Bool) (rc_hierarchy : RoadClass) : DirectedEdge :=
  let d := init
  let d := d.set_endnode endnode
  let d := d.set_use use
  let d := d.set_speed speed
  let d := d.set_truck_speed truck_speed
  -- Protect against 0 length edges
  let d := d.set_length (max length kMinimumEdgeLength) true
  -- Override use for ferries/rail ferries
  let d := if way.ferry && way.use != Use.kConstruction then d.set_use Use.kFerry else d
  let d := if way.rail && way.use != Use.kConstruction then d.set_use Use.kRailFerry else d
  let d := d.set_toll way.toll
  -- Set flag indicating this edge has a bike network
  let d := if bike_network != 0 then d.set_bike_network true else d
  let d := d.set_truck_route way.truck_route
  let d := if rc_hierarchy < k.kInvalid then d.set_hierarchy_roadclass rc_hierarchy else d
  let d := d.set_dest_only (!reclass_ferry && (way.destination_only || way.no_thru_traffic))
  let d := d.set_dest_only_hgv way.destination_only_hgv
  let d := d.set_dismount way.dismount
  let d := d.set_use_sidepath way.use_sidepath
  let d := d.set_sac_scale way.sac_scale
  let d := d.set_surface way.surface
  let d := d.set_tunnel way.tunnel
  let d := d.set_roundabout way.roundabout
  let d := d.set_bridge way.bridge
  let d := d.set_indoor way.indoor
  let d := d.set_link way.link
  let d := d.set_hov_type way.hov_type
  let d := d.set_classification rc
  let d := d.set_localedgeidx localidx
  let d := d.set_restrictions restrictions
  let d := d.set_traffic_signal signal
  let d := d.set_stop_sign stop_sign
  let d := d.set_yield_sign yield_sign
  let d := d.set_deadend minor
  let d := d.set_sidewalk_left way.sidewalk_left
  let d := d.set_sidewalk_right way.sidewalk_right
  let tagged_speed :=
    way.tagged_speed || way.forward_tagged_speed || way.backward_tagged_speed
  let d := d.set_speed_type (if tagged_speed then SpeedType.kTagged else SpeedType.kClassified)
  let d := d.set_lit way.lit
  -- Set forward flag and access modes (based on direction)
  let d := d.set_forward forward
  let forward_access := 0
  let reverse_access := 0
  let forward_access :=
    orIf ((way.auto_forward && forward) || (way.auto_backward && !forward))
      forward_access k.kAutoAccess
  let reverse_access :=
    orIf ((way.auto_forward && !forward) || (way.auto_backward && forward))
      reverse_access k.kAutoAccess
  let forward_access :=
    orIf ((way.truck_forward && forward) || (way.truck_backward && !forward))
      forward_access k.kTruckAccess
  let reverse_access :=
    orIf ((way.truck_forward && !forward) || (way.truck_backward && forward))
      reverse_access k.kTruckAccess
  let forward_access :=
    orIf ((way.bus_forward && forward) || (way.bus_backward && !forward))
      forward_access k.kBusAccess
  let reverse_access :=
    orIf ((way.bus_forward && !forward) || (way.bus_backward && forward))
      reverse_access k.kBusAccess
  let forward_access :=
    orIf ((way.bike_forward && forward) || (way.bike_backward && !forward))
      forward_access k.kBicycleAccess
  let reverse_access :=
    orIf ((way.bike_forward && !forward) || (way.bike_backward && forward))
      reverse_access k.kBicycleAccess
  let forward_access :=
    orIf ((way.moped_forward && forward) || (way.moped_backward && !forward))
      forward_access k.kMopedAccess
  let reverse_access :=
    orIf ((way.moped_forward && !forward) || (way.moped_backward && forward))
      reverse_access k.kMopedAccess
  let forward_access :=
    orIf ((way.motorcycle_forward && forward) || (way.motorcycle_backward && !forward))
      forward_access k.kMotorcycleAccess
  let reverse_access :=
    orIf ((way.motorcycle_forward && !forward) || (way.motorcycle_backward && forward))
      reverse_access k.kMotorcycleAccess
  let forward_access :=
    orIf ((way.emergency_forward && forward) || (way.emergency_backward && !forward))
      forward_access k.kEmergencyAccess
  let reverse_access :=
    orIf ((way.emergency_forward && !forward) || (way.emergency_backward && forward))
      reverse_access k.kEmergencyAccess
  let forward_access :=
    orIf ((way.hov_forward && forward) || (way.hov_backward && !forward))
      forward_access k.kHOVAccess
  let reverse_access :=
    orIf ((way.hov_forward && !forward) || (way.hov_backward && forward))
      reverse_access k.kHOVAccess
  let forward_access :=
    orIf ((way.taxi_forward && forward) || (way.taxi_backward && !forward))
      forward_access k.kTaxiAccess
  let reverse_access :=
    orIf ((way.taxi_forward && !forward) || (way.taxi_backward && forward))
      reverse_access k.kTaxiAccess
  let forward_access :=
    orIf ((way.pedestrian_forward && forward) || (way.pedestrian_backward && !forward))
      forward_access k.kPedestrianAccess
  let reverse_access :=
    orIf ((way.pedestrian_forward && !forward) || (way.pedestrian_backward && forward))
      reverse_access k.kPedestrianAccess
  let access :=
    if way.use != Use.kSteps && way.use != Use.kConstruction &&
        way.surface != Surface.kImpassable then
      if way.wheelchair_tag && way.wheelchair then
        (forward_access ||| k.kWheelchairAccess, reverse_access ||| k.kWheelchairAccess)
      else if !way.wheelchair_tag then
        (orIf ((way.pedestrian_forward && forward) || (way.pedestrian_backward && !forward))
           forward_access k.kWheelchairAccess,
         orIf ((way.pedestrian_forward && !forward) || (way.pedestrian_backward && forward))
           reverse_access k.kWheelchairAccess)
      else (forward_access, reverse_access)
    else (forward_access, reverse_access)
  -- Set access modes
  let d := d.set_forwardaccess access.1
  let d := d.set_reverseaccess access.2
  d

/-- The ten travel modes of the direction-remapping rule, in the order of the
source: the mask constant of each mode with the forward and the backward tag
of the way that the builder reads for it (directededgebuilder.cc, lines
103 to 162). -/
def accessModes : List ((GraphConstants → Nat) × (OSMWay → Bool) × (OSMWay → Bool)) :=
  [(GraphConstants.kAutoAccess, OSMWay.auto_forward, OSMWay.auto_backward),
   (GraphConstants.kTruckAccess, OSMWay.truck_forward, OSMWay.truck_backward),
   (GraphConstants.kBusAccess, OSMWay.bus_forward, OSMWay.bus_backward),
   (GraphConstants.kBicycleAccess, OSMWay.bike_forward, OSMWay.bike_backward),
   (GraphConstants.kMopedAccess, OSMWay.moped_forward, OSMWay.moped_backward),
   (GraphConstants.kMotorcycleAccess, OSMWay.motorcycle_forward, OSMWay.motorcycle_backward),
   (GraphConstants.kEmergencyAccess, OSMWay.emergency_forward, OSMWay.emergency_backward),
   (GraphConstants.kHOVAccess, OSMWay.hov_forward, OSMWay.hov_backward),
   (GraphConstants.kTaxiAccess, OSMWay.taxi_forward, OSMWay.taxi_backward),
   (GraphConstants.kPedestrianAccess, OSMWay.pedestrian_forward, OSMWay.pedestrian_backward)]

/-- The condition under which the builder ors `kWheelchairAccess` into a mask
(directededgebuilder.cc, lines 163 to 175); `ped` is the pedestrian condition
of that mask. -/
def wheelchairRule (way : OSMWay) (ped : Bool) : Bool :=
  (way.use != Use.kSteps && way.use != Use.kConstruction &&
      way.surface != Surface.kImpassable) &&
    ((way.wheelchair_tag && way.wheelchair) || (!way.wheelchair_tag && ped))

/-- The twenty-three attributes of a record that the builder sets without a
condition, in the order: the sixteen set from the same-named tag of the way
(toll, truck route, dismount, sidepath use, SAC scale, surface, tunnel,
roundabout, bridge, indoor, link, HOV type, sidewalk left, sidewalk right, lit,
destination-only HGV), then traffic signal, stop sign, yield sign, deadend,
classification, local edge index and restriction mask. -/
def copiedAttributes (d : DirectedEdge) :=
  (d.toll, d.truck_route, d.dismount, d.use_sidepath, d.sac_scale, d.surface, d.tunnel,
    d.roundabout, d.bridge, d.indoor, d.link, d.hov_type, d.sidewalk_left, d.sidewalk_right,
    d.lit, d.dest_only_hgv, d.traffic_signal, d.stop_sign, d.yield_sign, d.deadend,
    d.classification, d.localedgeidx, d.restrictions)

/-- Sample constants: eleven different single bits for the access constants
and 8 for `RoadClass::kInvalid`. -/
def exampleConstants : GraphConstants :=
  { kAutoAccess := 1, kPedestrianAccess := 2, kBicycleAccess := 4, kTruckAccess := 8,
    kEmergencyAccess := 16, kTaxiAccess := 32, kBusAccess := 64, kHOVAccess := 128,
    kWheelchairAccess := 256, kMopedAccess := 512, kMotorcycleAccess := 1024,
    kInvalid := 8 }

/-- A sample record to start from: every attribute cleared. -/
def exampleEdge : DirectedEdge :=
  { endnode := 0, use := Use.kOther 0, speed := 0, truck_speed := 0, length := 0,
    toll := false, bike_network := false, truck_route := false, hierarchy_roadclass := 0,
    dest_only := false, dest_only_hgv := false, dismount := false, use_sidepath := false,
    sac_scale := 0, surface := Surface.kOther 0, tunnel := false, roundabout := false,
    bridge := false, indoor := false, link := false, hov_type := 0, classification := 0,
    localedgeidx := 0, restrictions := 0, traffic_signal := false, stop_sign := false,
    yield_sign := false, deadend := false, sidewalk_left := false, sidewalk_right := false,
    speed_type := SpeedType.kClassified, lit := false, forward := false,
    forwardaccess := 0, reverseaccess := 0 }

/-- A sample way: an ordinary road (`kOther 0`) open to cars and pedestrians in
its forward direction only, no wheelchair tag, every other tag cleared. -/
def exampleWay : OSMWay :=
  { ferry := false, rail := false, use := Use.kOther 0, toll := false, truck_route := false,
    destination_only := false, no_thru_traffic := false, destination_only_hgv := false,
    dismount := false, use_sidepath := false, sac_scale := 0, surface := Surface.kOther 0,
    tunnel := false, roundabout := false, bridge := false, indoor := false, link := false,
    hov_type := 0, sidewalk_left := false, sidewalk_right := false, tagged_speed := false,
    forward_tagged_speed := false, backward_tagged_speed := false, lit := false,
    auto_forward := true, auto_backward := false, truck_forward := false,
    truck_backward := false, bus_forward := false, bus_backward := false,
    bike_forward := false, bike_backward := false, moped_forward := false,
    moped_backward := false, motorcycle_forward := false, motorcycle_backward := false,
    emergency_forward := false, emergency_backward := false, hov_forward := false,
    hov_backward := false, taxi_forward := false, taxi_backward := false,
    pedestrian_forward := true, pedestrian_backward := false, wheelchair_tag := false,
    wheelchair := false }

/-- The builder on a sample call: everything but the way, the direction, the
length, the `use` argument and the ferry reclassification flag is fixed. -/
def exampleBuild (way : OSMWay) (forward : Bool) (length : Nat) (use : Use)
    (reclass_ferry : Bool) : DirectedEdge :=
  DirectedEdgeBuilder exampleConstants exampleEdge way 7 forward length 50 40 use 3 1
    false false false false 0 0 reclass_ferry 8

end mjolnir

namespace sif

/-- Modelled from the spec: the enum `Costing::Type` (options.proto is not part
of the sources at hand), with the twelve costing types that the constructor of
`CostFactory` names.  The enum of a protobuf message is open: a field of this
type can hold a number that is none of the twelve, which is `unknown value`. -/
inductive CostingType where
  | auto_
  | bicycle
  | bus
  | taxi
  | motor_scooter
  | motorcycle
  | pedestrian
  | truck
  | transit
  | multimodal
  | none_
  | bikeshare
  | unknown (value : Nat)
  deriving DecidableEq, Repr

/-- What a `throw` carries: `std::runtime_error` with its message, or the
`std::out_of_range` of the member `at` of a map, whose message the standard
library chooses. -/
inductive Exception where
  | runtime_error (what : String)
  | out_of_range
  deriving DecidableEq, Repr

/-- Modelled from the spec: the protobuf message `Costing` (options.proto is
not part of the sources at hand), with its `type()` and, as one value, the
rest of the message (the per-type options). -/
structure Costing (Payload : Type) where
  type : CostingType
  payload : Payload
  deriving Repr

/-- Modelled from the spec: the setter `Costing::set_type` stores the type. -/
def Costing.set_type {Payload : Type} (c : Costing Payload) (type : CostingType) :
    Costing Payload :=
  { c with type := type }

/-- A map (`std::map`, protobuf `Map`) as the list of its entries. -/
abbrev Map (K V : Type) := List (K × V)

/-- The member `find`: the mapped value of the entry for `key`, `none` for the
end iterator. -/
def Map.find {K V : Type} [DecidableEq K] (m : Map K V) (key : K) : Option V :=
  match m with
  | [] => none
  | (k, v) :: rest => if k = key then some v else Map.find rest key

/-- The member `erase(key)`: drops every entry for `key`. -/
def Map.erase {K V : Type} [DecidableEq K] (m : Map K V) (key : K) : Map K V :=
  match m with
  | [] => []
  | (k, v) :: rest => if k = key then Map.erase rest key else (k, v) :: Map.erase rest key

/-- The member `emplace(key, value)`: adds the entry unless the map already has
one for `key`. -/
def Map.emplace {K V : Type} [DecidableEq K] (m : Map K V) (key : K) (value : V) : Map K V :=
  match Map.find m key with
  | some _ => m
  | none => (key, value) :: m

/-- The keys of the entries of a map. -/
def Map.keys {K V : Type} (m : Map K V) : List K :=
  m.map Prod.fst

/-- Modelled from the spec: the request message `Options` (options.proto is
not part of the sources at hand), with the selected `costing_type()` and the
`costings()` mapping from costing type to its `Costing` sub-message. -/
structure Options (Payload : Type) where
  costing_type : CostingType
  costings : Map CostingType (Costing Payload)
  deriving Repr

/-- The type `CostFactory::factory_function_t`: a function from the options of
one costing to a strategy handle, which may throw. -/
abbrev factory_function_t (Payload cost_ptr_t : Type) :=
  Costing Payload → Except Exception cost_ptr_t

/-- What a call of a `Create` member does: the strategy it returns or the
exception it throws, and the calls of factory functions it made on the way,
each with its argument, in order. -/
structure Outcome (Payload cost_ptr_t : Type) where
  result : Except Exception cost_ptr_t
  invoked : List (factory_function_t Payload cost_ptr_t × Costing Payload)

/-- The class `CostFactory`: its one member `factory_funcs_`. -/
structure CostFactory (Payload cost_ptr_t : Type) where
  factory_funcs_ : Map CostingType (factory_function_t Payload cost_ptr_t)

/-- What costfactory.h uses from other headers: `Costing_Enum_Name`, the
default-constructed message `Costing()`, and the eleven strategy constructors
that the constructor of `CostFactory` registers. -/
structure Externals (Payload cost_ptr_t : Type) where
  Costing_Enum_Name : CostingType → String
  default_costing : Costing Payload
  CreateAutoCost : factory_function_t Payload cost_ptr_t
  CreateBicycleCost : factory_function_t Payload cost_ptr_t
  CreateBusCost : factory_function_t Payload cost_ptr_t
  CreateTaxiCost : factory_function_t Payload cost_ptr_t
  CreateMotorScooterCost : factory_function_t Payload cost_ptr_t
  CreateMotorcycleCost : factory_function_t Payload cost_ptr_t
  CreatePedestrianCost : factory_function_t Payload cost_ptr_t
  CreateTruckCost : factory_function_t Payload cost_ptr_t
  CreateTransitCost : factory_function_t Payload cost_ptr_t
  CreateNoCost : factory_function_t Payload cost_ptr_t
  CreateBikeShareCost : factory_function_t Payload cost_ptr_t

/-- The member `CostFactory::Register`: erase, then emplace. -/
def CostFactory.Register {Payload cost_ptr_t : Type} (f : CostFactory Payload cost_ptr_t)
    (costing : CostingType) (function : factory_function_t Payload cost_ptr_t) :
    CostFactory Payload cost_ptr_t :=
  let factory_funcs_ := f.factory_funcs_.erase costing
  let factory_funcs_ := factory_funcs_.emplace costing function
  { factory_funcs_ := factory_funcs_ }

/-- The constructor `CostFactory::CostFactory()`: twelve `Register` calls on
the empty map, in the order of the source. -/
def CostFactory.new {Payload cost_ptr_t : Type} (x : Externals Payload cost_ptr_t) :
    CostFactory Payload cost_ptr_t :=
  let f : CostFactory Payload cost_ptr_t := { factory_funcs_ := [] }
  let f := f.Register CostingType.auto_ x.CreateAutoCost
  let f := f.Register CostingType.bicycle x.CreateBicycleCost
  let f := f.Register CostingType.bus x.CreateBusCost
  let f := f.Register CostingType.taxi x.CreateTaxiCost
  let f := f.Register CostingType.motor_scooter x.CreateMotorScooterCost
  let f := f.Register CostingType.motorcycle x.CreateMotorcycleCost
  let f := f.Register CostingType.pedestrian x.CreatePedestrianCost
  let f := f.Register CostingType.truck x.CreateTruckCost
  let f := f.Register CostingType.transit x.CreateTransitCost
  let f := f.Register CostingType.multimodal x.CreateNoCost
  let f := f.Register CostingType.none_ x.CreateNoCost
  let f := f.Register CostingType.bikeshare x.CreateBikeShareCost
  f

/-- The member `Create(const Costing& costing)`: looks the type up in
`factory_funcs_`, throws when it is not there, calls the function found
otherwise. -/
def CostFactory.Create_Costing {Payload cost_ptr_t : Type} (x : Externals Payload cost_ptr_t)
    (f : CostFactory Payload cost_ptr_t) (costing : Costing Payload) :
    Outcome Payload cost_ptr_t :=
  match f.factory_funcs_.find costing.type with
  | none =>
    let costing_str := x.Costing_Enum_Name costing.type
    { result := Except.error
        (Exception.runtime_error ("No costing method found for '" ++ costing_str ++ "'")),
      invoked := [] }
  | some function =>
    -- create the cost using the function pointer
    { result := function costing, invoked := [(function, costing)] }

/-- The member `Create(const Options& options)`. -/
def CostFactory.Create {Payload cost_ptr_t : Type} (x : Externals Payload cost_ptr_t)
    (f : CostFactory Payload cost_ptr_t) (options : Options Payload) :
    Outcome Payload cost_ptr_t :=
  match options.costings.find options.costing_type with
  | some found => f.Create_Costing x found
  | none =>
    { result := Except.error
        (Exception.runtime_error "No costing options provided to cost factory"),
      invoked := [] }

/-- The member `Create(Costing::Type costing_type)`. -/
def CostFactory.Create_Type {Payload cost_ptr_t : Type} (x : Externals Payload cost_ptr_t)
    (f : CostFactory Payload cost_ptr_t) (costing_type : CostingType) :
    Outcome Payload cost_ptr_t :=
  let default_costing := x.default_costing
  let default_costing := default_costing.set_type costing_type
  f.Create_Costing x default_costing

/-- Modelled from the spec: the enum `sif::TravelMode` (graphconstants.h is not
part of the sources at hand).  The two enumerators named by `CostFactory` are
kept, `kMaxTravelMode` being the "no mode" sentinel; every other travel mode is
`kOther code`. -/
inductive TravelMode where
  | kPedestrian
  | kMaxTravelMode
  | kOther (code : Nat)
  deriving DecidableEq, Repr

/-- Modelled from the spec: the table `mode_costing_t` (dynamiccost.h is not
part of the sources at hand), "a small fixed-capacity mapping from travel-mode
ordinal to CostStrategy handle (one slot per known travel mode)": a fixed
number of slots, slot `i` for the travel mode numbered `i`, each holding a
strategy handle or nothing. -/
structure mode_costing_t (cost_ptr_t : Type) where
  slots : List (Option cost_ptr_t)

/-- The default-constructed table with `capacity` slots: every slot empty. -/
def mode_costing_t.empty {cost_ptr_t : Type} (capacity : Nat) : mode_costing_t cost_ptr_t :=
  { slots := List.replicate capacity none }

/-- The content of slot `index` of a table: `mode_costing[index]`, nothing for
an empty slot (and for an index that the table has no slot for). -/
def mode_costing_t.slot {cost_ptr_t : Type} (mode_costing : mode_costing_t cost_ptr_t)
    (index : Nat) : Option cost_ptr_t :=
  mode_costing.slots.getD index none

/-- The assignment `mode_costing[index] = cost`: the table with `cost` in slot
`index`, or `none` when the table has no such slot, where the write goes
outside the table and the behaviour of the program is undefined. -/
def mode_costing_t.set {cost_ptr_t : Type} (mode_costing : mode_costing_t cost_ptr_t)
    (index : Nat) (cost : cost_ptr_t) : Option (mode_costing_t cost_ptr_t) :=
  if index < mode_costing.slots.length then
    some { slots := mode_costing.slots.set index (some cost) }
  else none

/-- How a call of `CreateModeCosting` ends: it returns the table, or it throws,
in both cases with a value left in the `mode` argument that it takes by
reference, or it has no defined behaviour. -/
inductive Ending (cost_ptr_t : Type) where
  | returns (mode_costing : mode_costing_t cost_ptr_t) (mode : TravelMode)
  | throws (e : Exception) (mode : TravelMode)
  | undefined

/-- The `for` statement of `CreateModeCosting` on the costings still to visit,
from the table and the mode reached so far; `returns` stands for the end of the
loop.  `travel_mode` is `DynamicCost::travel_mode` on a handle and `ordinal`
is `static_cast<uint32_t>` on a travel mode, the numbering of the enum, both
parameters.  Dereferencing the end iterator, when `find(costing)` has no entry,
is undefined, and so is the assignment to a slot that the table does not
have. -/
def CostFactory.CreateModeCosting_loop {Payload cost_ptr_t : Type}
    (x : Externals Payload cost_ptr_t) (travel_mode : cost_ptr_t → TravelMode)
    (ordinal : TravelMode → Nat)
    (f : CostFactory Payload cost_ptr_t) (options : Options Payload)
    (costings : List CostingType) (mode_costing : mode_costing_t cost_ptr_t)
    (mode : TravelMode) : Ending cost_ptr_t :=
  match costings with
  | [] => Ending.returns mode_costing mode
  | costing :: rest =>
    match options.costings.find costing with
    | none => Ending.undefined
    | some found =>
      match (f.Create_Costing x found).result with
      | Except.error e => Ending.throws e mode
      | Except.ok cost =>
        let mode := travel_mode cost
        match mode_costing.set (ordinal mode) cost with
        | none => Ending.undefined
        | some mode_costing =>
          CostFactory.CreateModeCosting_loop x travel_mode ordinal f options rest
            mode_costing mode

/-- The member `CostFactory::CreateModeCosting`.  `kCostingTypeMapping` is the
table of proto_conversions.h from a costing type to the costings it needs,
a parameter here; its member `at` throws `std::out_of_range` for a type that
has no entry.  Modelled from the spec: the table has one slot per known travel
mode, the known travel modes being those numbered below the sentinel
`kMaxTravelMode`, so the number of the sentinel is the number of slots and the
sentinel itself has no slot. -/
def CostFactory.CreateModeCosting {Payload cost_ptr_t : Type}
    (x : Externals Payload cost_ptr_t) (travel_mode : cost_ptr_t → TravelMode)
    (ordinal : TravelMode → Nat)
    (kCostingTypeMapping : Map CostingType (List CostingType))
    (f : CostFactory Payload cost_ptr_t) (options : Options Payload) :
    Ending cost_ptr_t :=
  let mode_costing : mode_costing_t cost_ptr_t :=
    mode_costing_t.empty (ordinal TravelMode.kMaxTravelMode)
  let mode := TravelMode.kMaxTravelMode
  -- Set travel mode and construct costing(s) for this type
  match kCostingTypeMapping.find options.costing_type with
  | none => Ending.throws Exception.out_of_range mode
  | some costings =>
    match f.CreateModeCosting_loop x travel_mode ordinal options costings mode_costing
        mode with
    | Ending.undefined => Ending.undefined
    | Ending.throws e mode => Ending.throws e mode
    | Ending.returns mode_costing mode =>
      let mode :=
        if options.costing_type = CostingType.multimodal ∨
            options.costing_type = CostingType.transit ∨
            options.costing_type = CostingType.bikeshare then
          -- For multi-modal we set the initial mode to pedestrian.
          TravelMode.kPedestrian
        else mode
      -- this should never happen
      if mode = TravelMode.kMaxTravelMode then
        Ending.throws
          (Exception.runtime_error ("sif::CostFactory couldn't find a valid TravelMode for " ++
            x.Costing_Enum_Name options.costing_type)) mode
      else Ending.returns mode_costing mode

/-- The default-options overload as the spec words it: the outcome of creating
from an options value that carries the type `costing_type` and is otherwise
default, which is the strategy that the constructor registered for the type
makes of that value, or the error for a type without a constructor. -/
def CostFactory.Create_Type_spec {Payload cost_ptr_t : Type}
    (x : Externals Payload cost_ptr_t) (f : CostFactory Payload cost_ptr_t)
    (costing_type : CostingType) : Outcome Payload cost_ptr_t :=
  let minimal : Costing Payload :=
    { type := costing_type, payload := x.default_costing.payload }
  match f.factory_funcs_.find costing_type with
  | some fn => { result := fn minimal, invoked := [(fn, minimal)] }
  | none =>
    { result := Except.error (Exception.runtime_error
        ("No costing method found for '" ++ x.Costing_Enum_Name costing_type ++ "'")),
      invoked := [] }

/-- The function that `CostFactory()` registers for each costing type, read off
its twelve `Register` calls; none for a value outside the twelve. -/
def CostFactory.builtin {Payload cost_ptr_t : Type} (x : Externals Payload cost_ptr_t)
    (costing : CostingType) : Option (factory_function_t Payload cost_ptr_t) :=
  match costing with
  | CostingType.auto_ => some x.CreateAutoCost
  | CostingType.bicycle => some x.CreateBicycleCost
  | CostingType.bus => some x.CreateBusCost
  | CostingType.taxi => some x.CreateTaxiCost
  | CostingType.motor_scooter => some x.CreateMotorScooterCost
  | CostingType.motorcycle => some x.CreateMotorcycleCost
  | CostingType.pedestrian => some x.CreatePedestrianCost
  | CostingType.truck => some x.CreateTruckCost
  | CostingType.transit => some x.CreateTransitCost
  | CostingType.multimodal => some x.CreateNoCost
  | CostingType.none_ => some x.CreateNoCost
  | CostingType.bikeshare => some x.CreateBikeShareCost
  | CostingType.unknown _ => none

/-- The twelve costing types that `CostFactory()` names, in the order of its
`Register` calls. -/
def CostingType.named : List CostingType :=
  [CostingType.auto_, CostingType.bicycle, CostingType.bus, CostingType.taxi,
   CostingType.motor_scooter, CostingType.motorcycle, CostingType.pedestrian,
   CostingType.truck, CostingType.transit, CostingType.multimodal, CostingType.none_,
   CostingType.bikeshare]

/-- A sequence of `Register` calls, first call first. -/
def CostFactory.RegisterAll {Payload cost_ptr_t : Type} (f : CostFactory Payload cost_ptr_t)
    (calls : List (CostingType × factory_function_t Payload cost_ptr_t)) :
    CostFactory Payload cost_ptr_t :=
  calls.foldl (fun g c => g.Register c.1 c.2) f

/-- Sample externals: the options of a costing are one number, a strategy
handle is the name of its class, and no constructor throws. -/
def exampleExternals : Externals Nat String :=
  { Costing_Enum_Name := fun _ => "costing",
    default_costing := { type := CostingType.none_, payload := 0 },
    CreateAutoCost := fun _ => Except.ok "AutoCost",
    CreateBicycleCost := fun _ => Except.ok "BicycleCost",
    CreateBusCost := fun _ => Except.ok "BusCost",
    CreateTaxiCost := fun _ => Except.ok "TaxiCost",
    CreateMotorScooterCost := fun _ => Except.ok "MotorScooterCost",
    CreateMotorcycleCost := fun _ => Except.ok "MotorcycleCost",
    CreatePedestrianCost := fun _ => Except.ok "PedestrianCost",
    CreateTruckCost := fun _ => Except.ok "TruckCost",
    CreateTransitCost := fun _ => Except.ok "TransitCost",
    CreateNoCost := fun _ => Except.ok "NoCost",
    CreateBikeShareCost := fun _ => Except.ok "BikeShareCost" }

/-- A sample request whose selected costing type is the value 99, outside the
twelve named types; it carries one entry, under that key, holding the
sub-message `entry`. -/
def exampleUnknownOptions (entry : Costing Nat) : Options Nat :=
  { costing_type := CostingType.unknown 99, costings := [(CostingType.unknown 99, entry)] }

/-- A sample request: selects `auto_` and carries one entry, under the key
`key`, holding the sub-message `entry`. -/
def exampleOptions (key : CostingType) (entry : Costing Nat) : Options Nat :=
  { costing_type := CostingType.auto_, costings := [(key, entry)] }

/-- A sample `travel_mode`: the pedestrian strategy reports `kPedestrian`, and
the car, bicycle and transit strategies report three other modes. -/
def exampleTravelMode (cost : String) : TravelMode :=
  if cost = "PedestrianCost" then TravelMode.kPedestrian
  else if cost = "BicycleCost" then TravelMode.kOther 2
  else if cost = "TransitCost" then TravelMode.kOther 3
  else TravelMode.kOther 0

/-- A sample numbering of the travel modes: pedestrian is 1, the sentinel is 4,
and the car, bicycle and transit modes of `exampleTravelMode` are 0, 2 and
3, so the table has four slots. -/
def exampleOrdinal (mode : TravelMode) : Nat :=
  match mode with
  | TravelMode.kPedestrian => 1
  | TravelMode.kMaxTravelMode => 4
  | TravelMode.kOther code => code

/-- A sample table of the costings that a costing type needs: a car request
needs `auto_`, a multimodal request `pedestrian` and `transit`, a bikeshare
request `bicycle`, and a `none_` request nothing. -/
def exampleMapping : Map CostingType (List CostingType) :=
  [(CostingType.auto_, [CostingType.auto_]),
   (CostingType.multimodal, [CostingType.pedestrian, CostingType.transit]),
   (CostingType.bikeshare, [CostingType.bicycle]),
   (CostingType.none_, [])]

/-- A sample request for `CreateModeCosting`: selects `type` and carries an
entry for each of `auto_`, `pedestrian`, `transit` and `bicycle`, each entry
with the type of its key. -/
def exampleModeOptions (type : CostingType) : Options Nat :=
  { costing_type := type,
    costings :=
      [(CostingType.auto_, { type := CostingType.auto_, payload := 1 }),
       (CostingType.pedestrian, { type := CostingType.pedestrian, payload := 2 }),
       (CostingType.transit, { type := CostingType.transit, payload := 3 }),
       (CostingType.bicycle, { type := CostingType.bicycle, payload := 4 })] }

end sif

end valhalla

/-! Theorems: the directed-edge builder. -/

namespace valhalla

namespace mjolnir

open baldr

/-- The and of a mask with a single bit is that bit or zero. -/
theorem and_two_pow_eq (m i : Nat) : m &&& 2 ^ i = if m.testBit i then 2 ^ i else 0 := by
  apply Nat.eq_of_testBit_eq
  intro j
  by_cases h : m.testBit i
  · by_cases hij : i = j
    · subst hij; simp [h]
    · simp [h, Nat.testBit_two_pow, hij]
  · by_cases hij : i = j
    · subst hij; simp [h]
    · simp [h, Nat.testBit_two_pow, hij]

/-- For a single-bit constant, `hasAccess` reads the bit of the mask. -/
theorem hasAccess_two_pow (m i : Nat) : hasAccess m (2 ^ i) = m.testBit i := by
  unfold hasAccess
  rw [and_two_pow_eq]
  by_cases h : m.testBit i
  · simp [h, Nat.pos_iff_ne_zero.mp (Nat.two_pow_pos i)]
  · simp [h]

/-- The empty mask allows nothing. -/
theorem hasAccess_zero (c : Nat) : hasAccess 0 c = false := by
  simp [hasAccess]

/-- Or-ing the single bit `c'` into a mask sets `c'` and changes no other
single bit. -/
theorem hasAccess_or {c c' : Nat} (hc : ∃ i, c = 2 ^ i) (hc' : ∃ j, c' = 2 ^ j) (m : Nat) :
    hasAccess (m ||| c') c = (hasAccess m c || decide (c = c')) := by
  obtain ⟨i, rfl⟩ := hc
  obtain ⟨j, rfl⟩ := hc'
  simp only [hasAccess_two_pow, Nat.testBit_or, Nat.testBit_two_pow]
  congr 1
  by_cases h : j = i
  · subst h; simp
  · have h2 : ¬ (2 ^ i = 2 ^ j) := fun e => h (Nat.pow_right_injective (le_refl 2) e).symm
    simp [h, h2]

/-- The statement `if (b) { m |= c'; }` sets `c'` when `b` holds and changes no
other single bit. -/
theorem hasAccess_orIf {c c' : Nat} (hc : ∃ i, c = 2 ^ i) (hc' : ∃ j, c' = 2 ^ j)
    (b : Bool) (m : Nat) :
    hasAccess (orIf b m c') c = (hasAccess m c || (b && decide (c = c'))) := by
  cases b
  · simp [orIf]
  · simp [orIf, hasAccess_or hc hc']

/-- The forward-access mask of the built record, bit by bit: a single-bit
constant `c` is in the mask iff it is the constant of a mode whose condition
holds, or the wheelchair constant and the wheelchair condition holds. -/
theorem hasAccess_forwardaccess (k : GraphConstants) (hk : k.ModeBits)
    (init : DirectedEdge) (way : OSMWay)
    (endnode : GraphId) (forward : Bool) (length speed truck_speed : Nat)
    (use : Use) (rc : RoadClass) (localidx : Nat)
    (signal stop_sign yield_sign minor : Bool) (restrictions bike_network : Nat)
    (reclass_ferry : Bool) (rc_hierarchy : RoadClass) (c : Nat) (hc : ∃ i, c = 2 ^ i) :
    hasAccess (DirectedEdgeBuilder k init way endnode forward length speed truck_speed use rc
      localidx signal stop_sign yield_sign minor restrictions bike_network reclass_ferry
      rc_hierarchy).forwardaccess c =
      ((((way.auto_forward && forward) || (way.auto_backward && !forward)) &&
          decide (c = k.kAutoAccess)) ||
      (((way.truck_forward && forward) || (way.truck_backward && !forward)) &&
          decide (c = k.kTruckAccess)) ||
      (((way.bus_forward && forward) || (way.bus_backward && !forward)) &&
          decide (c = k.kBusAccess)) ||
      (((way.bike_forward && forward) || (way.bike_backward && !forward)) &&
          decide (c = k.kBicycleAccess)) ||
      (((way.moped_forward && forward) || (way.moped_backward && !forward)) &&
          decide (c = k.kMopedAccess)) ||
      (((way.motorcycle_forward && forward) || (way.motorcycle_backward && !forward)) &&
          decide (c = k.kMotorcycleAccess)) ||
      (((way.emergency_forward && forward) || (way.emergency_backward && !forward)) &&
          decide (c = k.kEmergencyAccess)) ||
      (((way.hov_forward && forward) || (way.hov_backward && !forward)) &&
          decide (c = k.kHOVAccess)) ||
      (((way.taxi_forward && forward) || (way.taxi_backward && !forward)) &&
          decide (c = k.kTaxiAccess)) ||
      (((way.pedestrian_forward && forward) || (way.pedestrian_backward && !forward)) &&
          decide (c = k.kPedestrianAccess)) ||
      (wheelchairRule way
          ((way.pedestrian_forward && forward) || (way.pedestrian_backward && !forward)) &&
          decide (c = k.kWheelchairAccess))) := by
  obtain ⟨hs, -⟩ := hk
  simp only [GraphConstants.accessConstants, List.mem_cons, List.mem_singleton,
    forall_eq_or_imp, forall_eq, List.not_mem_nil, false_implies, implies_true,
    and_true] at hs
  obtain ⟨h1, h2, h3, h4, h5, h6, h7, h8, h9, h10, h11⟩ := hs
  simp only [DirectedEdgeBuilder, DirectedEdge.set_forwardaccess,
    DirectedEdge.set_reverseaccess, wheelchairRule]
  have e1 : ∀ (p : Prop) [Decidable p] (x y : Nat × Nat),
      (if p then x else y).1 = if p then x.1 else y.1 :=
    fun p _ x y => apply_ite Prod.fst p x y
  have e2 : ∀ (p : Prop) [Decidable p] (x y : Nat),
      hasAccess (if p then x else y) c = if p then hasAccess x c else hasAccess y c :=
    fun p _ x y => apply_ite (fun m => hasAccess m c) p x y
  simp only [e1, e2, hasAccess_orIf hc h1, hasAccess_orIf hc h2, hasAccess_orIf hc h3,
    hasAccess_orIf hc h4, hasAccess_orIf hc h5, hasAccess_orIf hc h6, hasAccess_orIf hc h7,
    hasAccess_orIf hc h8, hasAccess_orIf hc h9, hasAccess_orIf hc h10,
    hasAccess_orIf hc h11, hasAccess_or hc h9, hasAccess_zero, Bool.false_or]
  generalize (way.use != Use.kSteps && way.use != Use.kConstruction &&
    way.surface != Surface.kImpassable) = A
  generalize way.wheelchair_tag = B
  generalize way.wheelchair = C
  cases A <;> cases B <;> cases C <;> simp

/-- The reverse-access mask of the built record, bit by bit: a single-bit
constant `c` is in the mask iff it is the constant of a mode whose condition
holds, or the wheelchair constant and the wheelchair condition holds. -/
theorem hasAccess_reverseaccess (k : GraphConstants) (hk : k.ModeBits)
    (init : DirectedEdge) (way : OSMWay)
    (endnode : GraphId) (forward : Bool) (length speed truck_speed : Nat)
    (use : Use) (rc : RoadClass) (localidx : Nat)
    (signal stop_sign yield_sign minor : Bool) (restrictions bike_network : Nat)
    (reclass_ferry : Bool) (rc_hierarchy : RoadClass) (c : Nat) (hc : ∃ i, c = 2 ^ i) :
    hasAccess (DirectedEdgeBuilder k init way endnode forward length speed truck_speed use rc
      localidx signal stop_sign yield_sign minor restrictions bike_network reclass_ferry
      rc_hierarchy).reverseaccess c =
      ((((way.auto_forward && !forward) || (way.auto_backward && forward)) &&
          decide (c = k.kAutoAccess)) ||
      (((way.truck_forward && !forward) || (way.truck_backward && forward)) &&
          decide (c = k.kTruckAccess)) ||
      (((way.bus_forward && !forward) || (way.bus_backward && forward)) &&
          decide (c = k.kBusAccess)) ||
      (((way.bike_forward && !forward) || (way.bike_backward && forward)) &&
          decide (c = k.kBicycleAccess)) ||
      (((way.moped_forward && !forward) || (way.moped_backward && forward)) &&
          decide (c = k.kMopedAccess)) ||
      (((way.motorcycle_forward && !forward) || (way.motorcycle_backward && forward)) &&
          decide (c = k.kMotorcycleAccess)) ||
      (((way.emergency_forward && !forward) || (way.emergency_backward && forward)) &&
          decide (c = k.kEmergencyAccess)) ||
      (((way.hov_forward && !forward) || (way.hov_backward && forward)) &&
          decide (c = k.kHOVAccess)) ||
      (((way.taxi_forward && !forward) || (way.taxi_backward && forward)) &&
          decide (c = k.kTaxiAccess)) ||
      (((way.pedestrian_forward && !forward) || (way.pedestrian_backward && forward)) &&
          decide (c = k.kPedestrianAccess)) ||
      (wheelchairRule way
          ((way.pedestrian_forward && !forward) || (way.pedestrian_backward && forward)) &&
          decide (c = k.kWheelchairAccess))) := by
  obtain ⟨hs, -⟩ := hk
  simp only [GraphConstants.accessConstants, List.mem_cons, List.mem_singleton,
    forall_eq_or_imp, forall_eq, List.not_mem_nil, false_implies, implies_true,
    and_true] at hs
  obtain ⟨h1, h2, h3, h4, h5, h6, h7, h8, h9, h10, h11⟩ := hs
  simp only [DirectedEdgeBuilder, DirectedEdge.set_forwardaccess,
    DirectedEdge.set_reverseaccess, wheelchairRule]
  have e1 : ∀ (p : Prop) [Decidable p] (x y : Nat × Nat),
      (if p then x else y).2 = if p then x.2 else y.2 :=
    fun p _ x y => apply_ite Prod.snd p x y
  have e2 : ∀ (p : Prop) [Decidable p] (x y : Nat),
      hasAccess (if p then x else y) c = if p then hasAccess x c else hasAccess y c :=
    fun p _ x y => apply_ite (fun m => hasAccess m c) p x y
  simp only [e1, e2, hasAccess_orIf hc h1, hasAccess_orIf hc h2, hasAccess_orIf hc h3,
    hasAccess_orIf hc h4, hasAccess_orIf hc h5, hasAccess_orIf hc h6, hasAccess_orIf hc h7,
    hasAccess_orIf hc h8, hasAccess_orIf hc h9, hasAccess_orIf hc h10,
    hasAccess_orIf hc h11, hasAccess_or hc h9, hasAccess_zero, Bool.false_or]
  generalize (way.use != Use.kSteps && way.use != Use.kConstruction &&
    way.surface != Surface.kImpassable) = A
  generalize way.wheelchair_tag = B
  generalize way.wheelchair = C
  cases A <;> cases B <;> cases C <;> simp

/-- The sample constants are eleven different single bits. -/
theorem exampleConstants_modeBits : exampleConstants.ModeBits := by
  refine ⟨?_, by decide⟩
  simp only [GraphConstants.accessConstants, exampleConstants, List.mem_cons,
    List.mem_singleton, forall_eq_or_imp, forall_eq, List.not_mem_nil, false_implies,
    implies_true, and_true]
  exact ⟨⟨0, rfl⟩, ⟨1, rfl⟩, ⟨2, rfl⟩, ⟨3, rfl⟩, ⟨4, rfl⟩, ⟨5, rfl⟩, ⟨6, rfl⟩, ⟨7, rfl⟩,
    ⟨8, rfl⟩, ⟨9, rfl⟩, ⟨10, rfl⟩⟩

/-- C1: for each of the ten modes, the bit of the mode in the forward-access
mask of the built record is set iff (the forward tag of the way and `forward`)
or (the backward tag and not `forward`), and its bit in the reverse-access mask
is set iff (the forward tag and not `forward`) or (the backward tag and
`forward`).  The access constants are any eleven different single bits. -/
theorem access_mask_direction_remapping (k : GraphConstants) (hk : k.ModeBits)
    (init : DirectedEdge) (way : OSMWay)
    (endnode : GraphId) (forward : Bool) (length speed truck_speed : Nat)
    (use : Use) (rc : RoadClass) (localidx : Nat)
    (signal stop_sign yield_sign minor : Bool) (restrictions bike_network : Nat)
    (reclass_ferry : Bool) (rc_hierarchy : RoadClass) :
    ∀ m ∈ accessModes,
      hasAccess (DirectedEdgeBuilder k init way endnode forward length speed truck_speed use rc
          localidx signal stop_sign yield_sign minor restrictions bike_network reclass_ferry
          rc_hierarchy).forwardaccess (m.1 k)
        = ((m.2.1 way && forward) || (m.2.2 way && !forward)) ∧
      hasAccess (DirectedEdgeBuilder k init way endnode forward length speed truck_speed use rc
          localidx signal stop_sign yield_sign minor restrictions bike_network reclass_ferry
          rc_hierarchy).reverseaccess (m.1 k)
        = ((m.2.1 way && !forward) || (m.2.2 way && forward)) := by
  have hs := hk.single
  have hd := hk.distinct
  have hd2 := List.nodup_reverse.mpr hd
  simp only [GraphConstants.accessConstants, List.mem_cons, List.mem_singleton,
    forall_eq_or_imp, forall_eq, List.not_mem_nil, false_implies, implies_true,
    and_true] at hs
  simp [GraphConstants.accessConstants] at hd hd2
  intro m hm
  simp only [accessModes, List.mem_cons, List.mem_singleton, List.not_mem_nil, or_false] at hm
  rcases hm with rfl | rfl | rfl | rfl | rfl | rfl | rfl | rfl | rfl | rfl <;>
  refine ⟨?_, ?_⟩ <;>
  first
    | (rw [hasAccess_forwardaccess k hk init way endnode forward length speed truck_speed use rc
        localidx signal stop_sign yield_sign minor restrictions bike_network reclass_ferry
        rc_hierarchy _ (by simp only [hs])]; simp [hd, hd2])
    | (rw [hasAccess_reverseaccess k hk init way endnode forward length speed truck_speed use rc
        localidx signal stop_sign yield_sign minor restrictions bike_network reclass_ferry
        rc_hierarchy _ (by simp only [hs])]; simp [hd, hd2])

/-- C1, on the sample way (cars forward only): built with `forward = true` the
auto bit is in the forward mask and not in the reverse mask, built with
`forward = false` it is in the reverse mask and not in the forward mask. -/
theorem access_mask_direction_remapping_witness :
    exampleConstants.ModeBits ∧
    (hasAccess (exampleBuild exampleWay true 10 (Use.kOther 0) false).forwardaccess
        exampleConstants.kAutoAccess = true ∧
      hasAccess (exampleBuild exampleWay true 10 (Use.kOther 0) false).reverseaccess
        exampleConstants.kAutoAccess = false) ∧
    (hasAccess (exampleBuild exampleWay false 10 (Use.kOther 0) false).forwardaccess
        exampleConstants.kAutoAccess = false ∧
      hasAccess (exampleBuild exampleWay false 10 (Use.kOther 0) false).reverseaccess
        exampleConstants.kAutoAccess = true) :=
  ⟨exampleConstants_modeBits,
    access_mask_direction_remapping exampleConstants exampleConstants_modeBits exampleEdge
      exampleWay 7 true 10 50 40 (Use.kOther 0) 3 1 false false false false 0 0 false 8
      (GraphConstants.kAutoAccess, OSMWay.auto_forward, OSMWay.auto_backward)
      (by simp [accessModes]),
    access_mask_direction_remapping exampleConstants exampleConstants_modeBits exampleEdge
      exampleWay 7 false 10 50 40 (Use.kOther 0) 3 1 false false false false 0 0 false 8
      (GraphConstants.kAutoAccess, OSMWay.auto_forward, OSMWay.auto_backward)
      (by simp [accessModes])⟩

/-- C2: the wheelchair bit of the two masks of the built record.  It is unset
in both masks when the use of the way is steps or construction or its surface
is impassable; otherwise, with an explicit wheelchair tag, it equals the value
of the tag in both masks; otherwise it equals the pedestrian bit of the same
mask, which is the direction-remapping rule on the pedestrian tags. -/
theorem wheelchair_access_rule (k : GraphConstants) (hk : k.ModeBits)
    (init : DirectedEdge) (way : OSMWay)
    (endnode : GraphId) (forward : Bool) (length speed truck_speed : Nat)
    (use : Use) (rc : RoadClass) (localidx : Nat)
    (signal stop_sign yield_sign minor : Bool) (restrictions bike_network : Nat)
    (reclass_ferry : Bool) (rc_hierarchy : RoadClass) :
    let d := DirectedEdgeBuilder k init way endnode forward length speed truck_speed use rc
      localidx signal stop_sign yield_sign minor restrictions bike_network reclass_ferry
      rc_hierarchy
    ((way.use = Use.kSteps ∨ way.use = Use.kConstruction ∨
          way.surface = Surface.kImpassable) →
        hasAccess d.forwardaccess k.kWheelchairAccess = false ∧
        hasAccess d.reverseaccess k.kWheelchairAccess = false) ∧
    (¬ (way.use = Use.kSteps ∨ way.use = Use.kConstruction ∨
          way.surface = Surface.kImpassable) →
        way.wheelchair_tag = true →
        hasAccess d.forwardaccess k.kWheelchairAccess = way.wheelchair ∧
        hasAccess d.reverseaccess k.kWheelchairAccess = way.wheelchair) ∧
    (¬ (way.use = Use.kSteps ∨ way.use = Use.kConstruction ∨
          way.surface = Surface.kImpassable) →
        way.wheelchair_tag = false →
        (hasAccess d.forwardaccess k.kWheelchairAccess
            = hasAccess d.forwardaccess k.kPedestrianAccess ∧
          hasAccess d.forwardaccess k.kWheelchairAccess
            = ((way.pedestrian_forward && forward) || (way.pedestrian_backward && !forward))) ∧
        (hasAccess d.reverseaccess k.kWheelchairAccess
            = hasAccess d.reverseaccess k.kPedestrianAccess ∧
          hasAccess d.reverseaccess k.kWheelchairAccess
            = ((way.pedestrian_forward && !forward) || (way.pedestrian_backward && forward)))) := by
  intro d
  have hs := hk.single
  have hd := hk.distinct
  have hd2 := List.nodup_reverse.mpr hd
  simp only [GraphConstants.accessConstants, List.mem_cons, List.mem_singleton,
    forall_eq_or_imp, forall_eq, List.not_mem_nil, false_implies, implies_true,
    and_true] at hs
  simp [GraphConstants.accessConstants] at hd hd2
  have fw : hasAccess d.forwardaccess k.kWheelchairAccess
      = wheelchairRule way
          ((way.pedestrian_forward && forward) || (way.pedestrian_backward && !forward)) := by
    rw [hasAccess_forwardaccess k hk init way endnode forward length speed truck_speed use rc
      localidx signal stop_sign yield_sign minor restrictions bike_network reclass_ferry
      rc_hierarchy _ (by simp only [hs])]
    simp [hd, hd2]
  have rv : hasAccess d.reverseaccess k.kWheelchairAccess
      = wheelchairRule way
          ((way.pedestrian_forward && !forward) || (way.pedestrian_backward && forward)) := by
    rw [hasAccess_reverseaccess k hk init way endnode forward length speed truck_speed use rc
      localidx signal stop_sign yield_sign minor restrictions bike_network reclass_ferry
      rc_hierarchy _ (by simp only [hs])]
    simp [hd, hd2]
  have fp : hasAccess d.forwardaccess k.kPedestrianAccess
      = ((way.pedestrian_forward && forward) || (way.pedestrian_backward && !forward)) := by
    rw [hasAccess_forwardaccess k hk init way endnode forward length speed truck_speed use rc
      localidx signal stop_sign yield_sign minor restrictions bike_network reclass_ferry
      rc_hierarchy _ (by simp only [hs])]
    simp [hd, hd2]
  have rp : hasAccess d.reverseaccess k.kPedestrianAccess
      = ((way.pedestrian_forward && !forward) || (way.pedestrian_backward && forward)) := by
    rw [hasAccess_reverseaccess k hk init way endnode forward length speed truck_speed use rc
      localidx signal stop_sign yield_sign minor restrictions bike_network reclass_ferry
      rc_hierarchy _ (by simp only [hs])]
    simp [hd, hd2]
  rw [fw, rv, fp, rp]
  refine ⟨?_, ?_, ?_⟩
  · intro h
    rcases h with h | h | h <;> simp [wheelchairRule, h]
  · intro h ht
    simp only [not_or] at h
    simp [wheelchairRule, h, ht]
  · intro h ht
    simp only [not_or] at h
    simp [wheelchairRule, h, ht]

/-- C2, on sample ways.  Without a wheelchair tag, pedestrians forward only and
`forward = true`, the wheelchair bit is in the forward mask only; with the tag
set to accessible it is in both masks; with use = steps it is in neither,
tagged accessible or not. -/
theorem wheelchair_access_rule_witness :
    exampleConstants.ModeBits ∧
    (hasAccess (exampleBuild exampleWay true 10 (Use.kOther 0) false).forwardaccess
        exampleConstants.kWheelchairAccess = true ∧
      hasAccess (exampleBuild exampleWay true 10 (Use.kOther 0) false).reverseaccess
        exampleConstants.kWheelchairAccess = false) ∧
    (hasAccess (exampleBuild { exampleWay with wheelchair_tag := true, wheelchair := true }
        true 10 (Use.kOther 0) false).forwardaccess exampleConstants.kWheelchairAccess = true ∧
      hasAccess (exampleBuild { exampleWay with wheelchair_tag := true, wheelchair := true }
        true 10 (Use.kOther 0) false).reverseaccess exampleConstants.kWheelchairAccess = true) ∧
    (hasAccess (exampleBuild
        { exampleWay with use := Use.kSteps, wheelchair_tag := true, wheelchair := true }
        true 10 Use.kSteps false).forwardaccess exampleConstants.kWheelchairAccess = false ∧
      hasAccess (exampleBuild
        { exampleWay with use := Use.kSteps, wheelchair_tag := true, wheelchair := true }
        true 10 Use.kSteps false).reverseaccess exampleConstants.kWheelchairAccess = false) :=
  ⟨exampleConstants_modeBits,
    ⟨((wheelchair_access_rule exampleConstants exampleConstants_modeBits exampleEdge
        exampleWay 7 true 10 50 40 (Use.kOther 0) 3 1 false false false false 0 0 false 8).2.2
        (by decide) rfl).1.2,
     ((wheelchair_access_rule exampleConstants exampleConstants_modeBits exampleEdge
        exampleWay 7 true 10 50 40 (Use.kOther 0) 3 1 false false false false 0 0 false 8).2.2
        (by decide) rfl).2.2⟩,
    (wheelchair_access_rule exampleConstants exampleConstants_modeBits exampleEdge
        { exampleWay with wheelchair_tag := true, wheelchair := true }
        7 true 10 50 40 (Use.kOther 0) 3 1 false false false false 0 0 false 8).2.1
        (by decide) rfl,
    (wheelchair_access_rule exampleConstants exampleConstants_modeBits exampleEdge
        { exampleWay with use := Use.kSteps, wheelchair_tag := true, wheelchair := true }
        7 true 10 50 40 Use.kSteps 3 1 false false false false 0 0 false 8).1
        (Or.inl rfl)⟩

/-- C3: the destination-only flag of the built record is true iff
`reclass_ferry` is false and the way is tagged destination-only or
no-thru-traffic; so a destination-only way gives false with
`reclass_ferry = true` and true with `reclass_ferry = false`. -/
theorem dest_only_unless_reclass_ferry (k : GraphConstants)
    (init : DirectedEdge) (way : OSMWay)
    (endnode : GraphId) (forward : Bool) (length speed truck_speed : Nat)
    (use : Use) (rc : RoadClass) (localidx : Nat)
    (signal stop_sign yield_sign minor : Bool) (restrictions bike_network : Nat)
    (reclass_ferry : Bool) (rc_hierarchy : RoadClass) :
    ((DirectedEdgeBuilder k init way endnode forward length speed truck_speed use rc
        localidx signal stop_sign yield_sign minor restrictions bike_network reclass_ferry
        rc_hierarchy).dest_only = true ↔
      reclass_ferry = false ∧ (way.destination_only = true ∨ way.no_thru_traffic = true)) ∧
    (way.destination_only = true →
      (DirectedEdgeBuilder k init way endnode forward length speed truck_speed use rc
        localidx signal stop_sign yield_sign minor restrictions bike_network true
        rc_hierarchy).dest_only = false ∧
      (DirectedEdgeBuilder k init way endnode forward length speed truck_speed use rc
        localidx signal stop_sign yield_sign minor restrictions bike_network false
        rc_hierarchy).dest_only = true) := by
  have h : ∀ r : Bool,
      (DirectedEdgeBuilder k init way endnode forward length speed truck_speed use rc
        localidx signal stop_sign yield_sign minor restrictions bike_network r
        rc_hierarchy).dest_only = (!r && (way.destination_only || way.no_thru_traffic)) :=
    fun _ => rfl
  refine ⟨?_, ?_⟩
  · rw [h]
    cases reclass_ferry <;> simp
  · intro hd
    rw [h, h]
    simp [hd]

/-- C3, on a sample destination-only way: suppressed with ferry
reclassification, kept without. -/
theorem dest_only_unless_reclass_ferry_witness :
    (exampleBuild { exampleWay with destination_only := true } true 10 (Use.kOther 0)
        true).dest_only = false ∧
    (exampleBuild { exampleWay with destination_only := true } true 10 (Use.kOther 0)
        false).dest_only = true :=
  (dest_only_unless_reclass_ferry exampleConstants exampleEdge
    { exampleWay with destination_only := true } 7 true 10 50 40 (Use.kOther 0) 3 1
    false false false false 0 0 false 8).2 rfl

/-- The use of the built record: the `use` argument, replaced by `kFerry` when
the way is a ferry and by `kRailFerry` when the way is rail, the second
replacement after the first, and neither when the use of the way is
construction. -/
theorem DirectedEdgeBuilder_use (k : GraphConstants)
    (init : DirectedEdge) (way : OSMWay)
    (endnode : GraphId) (forward : Bool) (length speed truck_speed : Nat)
    (use : Use) (rc : RoadClass) (localidx : Nat)
    (signal stop_sign yield_sign minor : Bool) (restrictions bike_network : Nat)
    (reclass_ferry : Bool) (rc_hierarchy : RoadClass) :
    (DirectedEdgeBuilder k init way endnode forward length speed truck_speed use rc
        localidx signal stop_sign yield_sign minor restrictions bike_network reclass_ferry
        rc_hierarchy).use =
      if way.rail && way.use != Use.kConstruction then Use.kRailFerry
      else if way.ferry && way.use != Use.kConstruction then Use.kFerry
      else use := by
  simp only [DirectedEdgeBuilder, apply_ite DirectedEdge.use, DirectedEdge.set_endnode,
    DirectedEdge.set_use, DirectedEdge.set_speed,
    DirectedEdge.set_truck_speed, DirectedEdge.set_length, DirectedEdge.set_toll,
    DirectedEdge.set_bike_network, DirectedEdge.set_truck_route,
    DirectedEdge.set_hierarchy_roadclass, DirectedEdge.set_dest_only,
    DirectedEdge.set_dest_only_hgv, DirectedEdge.set_dismount,
    DirectedEdge.set_use_sidepath, DirectedEdge.set_sac_scale, DirectedEdge.set_surface,
    DirectedEdge.set_tunnel, DirectedEdge.set_roundabout, DirectedEdge.set_bridge,
    DirectedEdge.set_indoor, DirectedEdge.set_link, DirectedEdge.set_hov_type,
    DirectedEdge.set_classification, DirectedEdge.set_localedgeidx,
    DirectedEdge.set_restrictions, DirectedEdge.set_traffic_signal,
    DirectedEdge.set_stop_sign, DirectedEdge.set_yield_sign, DirectedEdge.set_deadend,
    DirectedEdge.set_sidewalk_left, DirectedEdge.set_sidewalk_right,
    DirectedEdge.set_speed_type, DirectedEdge.set_lit, DirectedEdge.set_forward,
    DirectedEdge.set_forwardaccess, DirectedEdge.set_reverseaccess]
  split_ifs <;> rfl

/-- The length of the built record: the larger of the length argument and
`kMinimumEdgeLength`. -/
theorem DirectedEdgeBuilder_length (k : GraphConstants)
    (init : DirectedEdge) (way : OSMWay)
    (endnode : GraphId) (forward : Bool) (length speed truck_speed : Nat)
    (use : Use) (rc : RoadClass) (localidx : Nat)
    (signal stop_sign yield_sign minor : Bool) (restrictions bike_network : Nat)
    (reclass_ferry : Bool) (rc_hierarchy : RoadClass) :
    (DirectedEdgeBuilder k init way endnode forward length speed truck_speed use rc
        localidx signal stop_sign yield_sign minor restrictions bike_network reclass_ferry
        rc_hierarchy).length = max length kMinimumEdgeLength := by
  simp only [DirectedEdgeBuilder, apply_ite DirectedEdge.length, DirectedEdge.set_endnode,
    DirectedEdge.set_use, DirectedEdge.set_speed,
    DirectedEdge.set_truck_speed, DirectedEdge.set_length, DirectedEdge.set_toll,
    DirectedEdge.set_bike_network, DirectedEdge.set_truck_route,
    DirectedEdge.set_hierarchy_roadclass, DirectedEdge.set_dest_only,
    DirectedEdge.set_dest_only_hgv, DirectedEdge.set_dismount,
    DirectedEdge.set_use_sidepath, DirectedEdge.set_sac_scale, DirectedEdge.set_surface,
    DirectedEdge.set_tunnel, DirectedEdge.set_roundabout, DirectedEdge.set_bridge,
    DirectedEdge.set_indoor, DirectedEdge.set_link, DirectedEdge.set_hov_type,
    DirectedEdge.set_classification, DirectedEdge.set_localedgeidx,
    DirectedEdge.set_restrictions, DirectedEdge.set_traffic_signal,
    DirectedEdge.set_stop_sign, DirectedEdge.set_yield_sign, DirectedEdge.set_deadend,
    DirectedEdge.set_sidewalk_left, DirectedEdge.set_sidewalk_right,
    DirectedEdge.set_speed_type, DirectedEdge.set_lit, DirectedEdge.set_forward,
    DirectedEdge.set_forwardaccess, DirectedEdge.set_reverseaccess, ite_self]

/-- C4 as stated fails: a ferry way whose use is construction, built with the
`use` argument `kOther 0`, gives a record whose use is `kOther 0`, not
construction. -/
theorem construction_use_counterexample :
    ({ exampleWay with ferry := true, use := Use.kConstruction } : OSMWay).ferry = true ∧
    ({ exampleWay with ferry := true, use := Use.kConstruction } : OSMWay).use
      = Use.kConstruction ∧
    (exampleBuild { exampleWay with ferry := true, use := Use.kConstruction } true 10
      (Use.kOther 0) false).use = Use.kOther 0 ∧
    (exampleBuild { exampleWay with ferry := true, use := Use.kConstruction } true 10
      (Use.kOther 0) false).use ≠ Use.kConstruction := by
  refine ⟨rfl, rfl, ?_, ?_⟩ <;>
    simp [exampleBuild, DirectedEdgeBuilder_use, exampleWay]

/-- C4, amended: when the use of the way is construction, whatever its ferry
and rail flags, the use of the built record is the `use` argument unchanged,
never replaced by ferry or rail-ferry; it is construction when the caller
passes the use of the way. -/
theorem construction_keeps_use_argument (k : GraphConstants)
    (init : DirectedEdge) (way : OSMWay)
    (endnode : GraphId) (forward : Bool) (length speed truck_speed : Nat)
    (use : Use) (rc : RoadClass) (localidx : Nat)
    (signal stop_sign yield_sign minor : Bool) (restrictions bike_network : Nat)
    (reclass_ferry : Bool) (rc_hierarchy : RoadClass)
    (hway : way.use = Use.kConstruction) :
    (DirectedEdgeBuilder k init way endnode forward length speed truck_speed use rc
        localidx signal stop_sign yield_sign minor restrictions bike_network reclass_ferry
        rc_hierarchy).use = use ∧
    (DirectedEdgeBuilder k init way endnode forward length speed truck_speed way.use rc
        localidx signal stop_sign yield_sign minor restrictions bike_network reclass_ferry
        rc_hierarchy).use = Use.kConstruction := by
  rw [DirectedEdgeBuilder_use, DirectedEdgeBuilder_use]
  simp [hway]

/-- C4, amended, on a sample ferry and rail way under construction. -/
theorem construction_keeps_use_argument_witness :
    ({ exampleWay with ferry := true, rail := true, use := Use.kConstruction } : OSMWay).use
      = Use.kConstruction ∧
    (exampleBuild { exampleWay with ferry := true, rail := true, use := Use.kConstruction }
      true 10 (Use.kOther 0) false).use = Use.kOther 0 ∧
    (exampleBuild { exampleWay with ferry := true, rail := true, use := Use.kConstruction }
      true 10 Use.kConstruction false).use = Use.kConstruction :=
  ⟨rfl,
    construction_keeps_use_argument exampleConstants exampleEdge
      { exampleWay with ferry := true, rail := true, use := Use.kConstruction }
      7 true 10 50 40 (Use.kOther 0) 3 1 false false false false 0 0 false 8 rfl⟩

/-- C5 as stated fails: a way flagged ferry and rail whose use is not
construction gives a record whose use is rail-ferry, not ferry. -/
theorem ferry_use_counterexample :
    ({ exampleWay with ferry := true, rail := true } : OSMWay).ferry = true ∧
    ({ exampleWay with ferry := true, rail := true } : OSMWay).use ≠ Use.kConstruction ∧
    (exampleBuild { exampleWay with ferry := true, rail := true } true 10
      (Use.kOther 0) false).use = Use.kRailFerry ∧
    (exampleBuild { exampleWay with ferry := true, rail := true } true 10
      (Use.kOther 0) false).use ≠ Use.kFerry := by
  refine ⟨rfl, by decide, ?_, ?_⟩ <;>
    simp [exampleBuild, DirectedEdgeBuilder_use, exampleWay]

/-- C5, amended: when the use of the way is not construction, the use of the
built record is rail-ferry if the way is flagged rail, ferry if it is flagged
ferry and not rail, and the `use` argument unchanged if it is flagged
neither. -/
theorem ferry_rail_use_override (k : GraphConstants)
    (init : DirectedEdge) (way : OSMWay)
    (endnode : GraphId) (forward : Bool) (length speed truck_speed : Nat)
    (use : Use) (rc : RoadClass) (localidx : Nat)
    (signal stop_sign yield_sign minor : Bool) (restrictions bike_network : Nat)
    (reclass_ferry : Bool) (rc_hierarchy : RoadClass)
    (hway : way.use ≠ Use.kConstruction) :
    (way.rail = true →
      (DirectedEdgeBuilder k init way endnode forward length speed truck_speed use rc
        localidx signal stop_sign yield_sign minor restrictions bike_network reclass_ferry
        rc_hierarchy).use = Use.kRailFerry) ∧
    (way.ferry = true → way.rail = false →
      (DirectedEdgeBuilder k init way endnode forward length speed truck_speed use rc
        localidx signal stop_sign yield_sign minor restrictions bike_network reclass_ferry
        rc_hierarchy).use = Use.kFerry) ∧
    (way.ferry = false → way.rail = false →
      (DirectedEdgeBuilder k init way endnode forward length speed truck_speed use rc
        localidx signal stop_sign yield_sign minor restrictions bike_network reclass_ferry
        rc_hierarchy).use = use) := by
  rw [DirectedEdgeBuilder_use]
  refine ⟨?_, ?_, ?_⟩
  · intro hr
    simp [hr, hway]
  · intro hf hr
    simp [hf, hr, hway]
  · intro hf hr
    simp [hf, hr]

/-- C5, amended, on sample ways whose use is an ordinary road: a rail way, a
ferry way that is not rail, and a way that is neither. -/
theorem ferry_rail_use_override_witness :
    exampleWay.use ≠ Use.kConstruction ∧
    (exampleBuild { exampleWay with rail := true } true 10 (Use.kOther 0) false).use
      = Use.kRailFerry ∧
    (exampleBuild { exampleWay with ferry := true } true 10 (Use.kOther 0) false).use
      = Use.kFerry ∧
    (exampleBuild exampleWay true 10 (Use.kOther 0) false).use = Use.kOther 0 :=
  ⟨by decide,
    (ferry_rail_use_override exampleConstants exampleEdge { exampleWay with rail := true }
      7 true 10 50 40 (Use.kOther 0) 3 1 false false false false 0 0 false 8
      (by decide)).1 rfl,
    (ferry_rail_use_override exampleConstants exampleEdge { exampleWay with ferry := true }
      7 true 10 50 40 (Use.kOther 0) 3 1 false false false false 0 0 false 8
      (by decide)).2.1 rfl rfl,
    (ferry_rail_use_override exampleConstants exampleEdge exampleWay
      7 true 10 50 40 (Use.kOther 0) 3 1 false false false false 0 0 false 8
      (by decide)).2.2 rfl rfl⟩

/-- C6: the length stored in the built record is never less than 1; it is 1
when the length argument is 0 and the length argument unchanged when that is 1
or more. -/
theorem length_at_least_one (k : GraphConstants)
    (init : DirectedEdge) (way : OSMWay)
    (endnode : GraphId) (forward : Bool) (length speed truck_speed : Nat)
    (use : Use) (rc : RoadClass) (localidx : Nat)
    (signal stop_sign yield_sign minor : Bool) (restrictions bike_network : Nat)
    (reclass_ferry : Bool) (rc_hierarchy : RoadClass) :
    1 ≤ (DirectedEdgeBuilder k init way endnode forward length speed truck_speed use rc
        localidx signal stop_sign yield_sign minor restrictions bike_network reclass_ferry
        rc_hierarchy).length ∧
    (length = 0 →
      (DirectedEdgeBuilder k init way endnode forward length speed truck_speed use rc
        localidx signal stop_sign yield_sign minor restrictions bike_network reclass_ferry
        rc_hierarchy).length = 1) ∧
    (1 ≤ length →
      (DirectedEdgeBuilder k init way endnode forward length speed truck_speed use rc
        localidx signal stop_sign yield_sign minor restrictions bike_network reclass_ferry
        rc_hierarchy).length = length) := by
  rw [DirectedEdgeBuilder_length, kMinimumEdgeLength]
  refine ⟨le_max_right _ _, ?_, ?_⟩
  · intro h
    simp [h]
  · intro h
    exact max_eq_left h

/-- C6, on sample lengths: 0 is stored as 1, and 1 and the largest unsigned
32-bit value are stored unchanged. -/
theorem length_at_least_one_witness :
    (exampleBuild exampleWay true 0 (Use.kOther 0) false).length = 1 ∧
    (exampleBuild exampleWay true 1 (Use.kOther 0) false).length = 1 ∧
    (exampleBuild exampleWay true 4294967295 (Use.kOther 0) false).length = 4294967295 :=
  ⟨(length_at_least_one exampleConstants exampleEdge exampleWay
      7 true 0 50 40 (Use.kOther 0) 3 1 false false false false 0 0 false 8).2.1 rfl,
    (length_at_least_one exampleConstants exampleEdge exampleWay
      7 true 1 50 40 (Use.kOther 0) 3 1 false false false false 0 0 false 8).2.2 (by decide),
    (length_at_least_one exampleConstants exampleEdge exampleWay
      7 true 4294967295 50 40 (Use.kOther 0) 3 1 false false false false 0 0 false 8).2.2
      (by decide)⟩

/-- C14: the speed type of the built record is tagged iff the way carries the
general, the forward or the backward speed tag, and classified otherwise. -/
theorem speed_type_tagged_iff (k : GraphConstants)
    (init : DirectedEdge) (way : OSMWay)
    (endnode : GraphId) (forward : Bool) (length speed truck_speed : Nat)
    (use : Use) (rc : RoadClass) (localidx : Nat)
    (signal stop_sign yield_sign minor : Bool) (restrictions bike_network : Nat)
    (reclass_ferry : Bool) (rc_hierarchy : RoadClass) :
    ((DirectedEdgeBuilder k init way endnode forward length speed truck_speed use rc
        localidx signal stop_sign yield_sign minor restrictions bike_network reclass_ferry
        rc_hierarchy).speed_type = SpeedType.kTagged ↔
      (way.tagged_speed = true ∨ way.forward_tagged_speed = true ∨
        way.backward_tagged_speed = true)) ∧
    ((DirectedEdgeBuilder k init way endnode forward length speed truck_speed use rc
        localidx signal stop_sign yield_sign minor restrictions bike_network reclass_ferry
        rc_hierarchy).speed_type = SpeedType.kClassified ↔
      ¬ (way.tagged_speed = true ∨ way.forward_tagged_speed = true ∨
        way.backward_tagged_speed = true)) := by
  have h : (DirectedEdgeBuilder k init way endnode forward length speed truck_speed use rc
        localidx signal stop_sign yield_sign minor restrictions bike_network reclass_ferry
        rc_hierarchy).speed_type =
      if (way.tagged_speed || way.forward_tagged_speed || way.backward_tagged_speed) = true
      then SpeedType.kTagged else SpeedType.kClassified := rfl
  rw [h]
  cases way.tagged_speed <;> cases way.forward_tagged_speed <;>
    cases way.backward_tagged_speed <;> simp

/-- C14, on sample ways: a way with the backward speed tag only gives tagged,
a way with no speed tag gives classified. -/
theorem speed_type_tagged_iff_witness :
    (exampleBuild { exampleWay with backward_tagged_speed := true } true 10 (Use.kOther 0)
        false).speed_type = SpeedType.kTagged ∧
    (exampleBuild exampleWay true 10 (Use.kOther 0) false).speed_type
      = SpeedType.kClassified :=
  ⟨(speed_type_tagged_iff exampleConstants exampleEdge
      { exampleWay with backward_tagged_speed := true } 7 true 10 50 40 (Use.kOther 0) 3 1
      false false false false 0 0 false 8).1.mpr (Or.inr (Or.inr rfl)),
    (speed_type_tagged_iff exampleConstants exampleEdge exampleWay 7 true 10 50 40
      (Use.kOther 0) 3 1 false false false false 0 0 false 8).2.mpr (by decide)⟩

/-- The hierarchy road class of the built record: the `rc_hierarchy` argument
when that is below `RoadClass::kInvalid`, what the record started with
otherwise. -/
theorem DirectedEdgeBuilder_hierarchy_roadclass (k : GraphConstants)
    (init : DirectedEdge) (way : OSMWay)
    (endnode : GraphId) (forward : Bool) (length speed truck_speed : Nat)
    (use : Use) (rc : RoadClass) (localidx : Nat)
    (signal stop_sign yield_sign minor : Bool) (restrictions bike_network : Nat)
    (reclass_ferry : Bool) (rc_hierarchy : RoadClass) :
    (DirectedEdgeBuilder k init way endnode forward length speed truck_speed use rc
        localidx signal stop_sign yield_sign minor restrictions bike_network reclass_ferry
        rc_hierarchy).hierarchy_roadclass =
      if rc_hierarchy < k.kInvalid then rc_hierarchy else init.hierarchy_roadclass := by
  simp only [DirectedEdgeBuilder, apply_ite DirectedEdge.hierarchy_roadclass,
    DirectedEdge.set_endnode, DirectedEdge.set_use, DirectedEdge.set_speed,
    DirectedEdge.set_truck_speed, DirectedEdge.set_length, DirectedEdge.set_toll,
    DirectedEdge.set_bike_network, DirectedEdge.set_truck_route,
    DirectedEdge.set_hierarchy_roadclass, DirectedEdge.set_dest_only,
    DirectedEdge.set_dest_only_hgv, DirectedEdge.set_dismount,
    DirectedEdge.set_use_sidepath, DirectedEdge.set_sac_scale, DirectedEdge.set_surface,
    DirectedEdge.set_tunnel, DirectedEdge.set_roundabout, DirectedEdge.set_bridge,
    DirectedEdge.set_indoor, DirectedEdge.set_link, DirectedEdge.set_hov_type,
    DirectedEdge.set_classification, DirectedEdge.set_localedgeidx,
    DirectedEdge.set_restrictions, DirectedEdge.set_traffic_signal,
    DirectedEdge.set_stop_sign, DirectedEdge.set_yield_sign, DirectedEdge.set_deadend,
    DirectedEdge.set_sidewalk_left, DirectedEdge.set_sidewalk_right,
    DirectedEdge.set_speed_type, DirectedEdge.set_lit, DirectedEdge.set_forward,
    DirectedEdge.set_forwardaccess, DirectedEdge.set_reverseaccess,
    ite_self]

/-- C15: the hierarchy road class of the built record is the `rc_hierarchy`
argument exactly when that is numerically below `RoadClass::kInvalid`;
otherwise, and so when `rc_hierarchy` is `kInvalid` itself, it is the value of
the default-constructed record. -/
theorem hierarchy_roadclass_below_invalid (k : GraphConstants)
    (init : DirectedEdge) (way : OSMWay)
    (endnode : GraphId) (forward : Bool) (length speed truck_speed : Nat)
    (use : Use) (rc : RoadClass) (localidx : Nat)
    (signal stop_sign yield_sign minor : Bool) (restrictions bike_network : Nat)
    (reclass_ferry : Bool) (rc_hierarchy : RoadClass) :
    (rc_hierarchy < k.kInvalid →
      (DirectedEdgeBuilder k init way endnode forward length speed truck_speed use rc
        localidx signal stop_sign yield_sign minor restrictions bike_network reclass_ferry
        rc_hierarchy).hierarchy_roadclass = rc_hierarchy) ∧
    (¬ rc_hierarchy < k.kInvalid →
      (DirectedEdgeBuilder k init way endnode forward length speed truck_speed use rc
        localidx signal stop_sign yield_sign minor restrictions bike_network reclass_ferry
        rc_hierarchy).hierarchy_roadclass = init.hierarchy_roadclass) ∧
    (rc_hierarchy = k.kInvalid →
      (DirectedEdgeBuilder k init way endnode forward length speed truck_speed use rc
        localidx signal stop_sign yield_sign minor restrictions bike_network reclass_ferry
        rc_hierarchy).hierarchy_roadclass = init.hierarchy_roadclass) := by
  rw [DirectedEdgeBuilder_hierarchy_roadclass]
  refine ⟨?_, ?_, ?_⟩
  · intro h
    simp [h]
  · intro h
    simp [h]
  · intro h
    simp [h]

/-- C15, on the sample constants (`kInvalid` is 8) and a default record whose
slot holds 0: `rc_hierarchy = 2` is stored, `rc_hierarchy = 8` is not. -/
theorem hierarchy_roadclass_below_invalid_witness :
    (DirectedEdgeBuilder exampleConstants exampleEdge exampleWay 7 true 10 50 40
        (Use.kOther 0) 3 1 false false false false 0 0 false 2).hierarchy_roadclass = 2 ∧
    (DirectedEdgeBuilder exampleConstants exampleEdge exampleWay 7 true 10 50 40
        (Use.kOther 0) 3 1 false false false false 0 0 false 8).hierarchy_roadclass = 0 :=
  ⟨(hierarchy_roadclass_below_invalid exampleConstants exampleEdge exampleWay 7 true 10 50 40
      (Use.kOther 0) 3 1 false false false false 0 0 false 2).1 (by decide),
    (hierarchy_roadclass_below_invalid exampleConstants exampleEdge exampleWay 7 true 10 50 40
      (Use.kOther 0) 3 1 false false false false 0 0 false 8).2.2 rfl⟩

/-- The attributes that the builder copies without a condition, each from its
own input. -/
theorem DirectedEdgeBuilder_copiedAttributes (k : GraphConstants)
    (init : DirectedEdge) (way : OSMWay)
    (endnode : GraphId) (forward : Bool) (length speed truck_speed : Nat)
    (use : Use) (rc : RoadClass) (localidx : Nat)
    (signal stop_sign yield_sign minor : Bool) (restrictions bike_network : Nat)
    (reclass_ferry : Bool) (rc_hierarchy : RoadClass) :
    copiedAttributes (DirectedEdgeBuilder k init way endnode forward length speed truck_speed use rc
      localidx signal stop_sign yield_sign minor restrictions bike_network reclass_ferry
      rc_hierarchy) =
      (way.toll, way.truck_route, way.dismount, way.use_sidepath, way.sac_scale,
        way.surface, way.tunnel, way.roundabout, way.bridge, way.indoor, way.link,
        way.hov_type, way.sidewalk_left, way.sidewalk_right, way.lit,
        way.destination_only_hgv, signal, stop_sign, yield_sign, minor, rc, localidx,
        restrictions) := by
  simp only [copiedAttributes, DirectedEdgeBuilder, apply_ite DirectedEdge.toll,
    apply_ite DirectedEdge.truck_route,
    DirectedEdge.set_endnode, DirectedEdge.set_use, DirectedEdge.set_speed,
    DirectedEdge.set_truck_speed, DirectedEdge.set_length, DirectedEdge.set_toll,
    DirectedEdge.set_bike_network, DirectedEdge.set_truck_route,
    DirectedEdge.set_hierarchy_roadclass, DirectedEdge.set_dest_only,
    DirectedEdge.set_dest_only_hgv, DirectedEdge.set_dismount,
    DirectedEdge.set_use_sidepath, DirectedEdge.set_sac_scale, DirectedEdge.set_surface,
    DirectedEdge.set_tunnel, DirectedEdge.set_roundabout, DirectedEdge.set_bridge,
    DirectedEdge.set_indoor, DirectedEdge.set_link, DirectedEdge.set_hov_type,
    DirectedEdge.set_classification, DirectedEdge.set_localedgeidx,
    DirectedEdge.set_restrictions, DirectedEdge.set_traffic_signal,
    DirectedEdge.set_stop_sign, DirectedEdge.set_yield_sign, DirectedEdge.set_deadend,
    DirectedEdge.set_sidewalk_left, DirectedEdge.set_sidewalk_right,
    DirectedEdge.set_speed_type, DirectedEdge.set_lit, DirectedEdge.set_forward,
    DirectedEdge.set_forwardaccess, DirectedEdge.set_reverseaccess,
    ite_self]

/-- C16: each of the twenty-three attributes that the builder sets without a
condition equals its own input (the same-named tag of the way for sixteen of
them, then `signal`, `stop_sign`, `yield_sign`, `minor`, `rc`, `localidx` and
`restrictions`), so it depends on no other input; in particular none changes
with `forward`, `reclass_ferry`, the ferry and rail flags of the way or the
length. -/
theorem copied_attributes_equal_inputs (k : GraphConstants)
    (init : DirectedEdge) (way : OSMWay)
    (endnode : GraphId) (forward : Bool) (length speed truck_speed : Nat)
    (use : Use) (rc : RoadClass) (localidx : Nat)
    (signal stop_sign yield_sign minor : Bool) (restrictions bike_network : Nat)
    (reclass_ferry : Bool) (rc_hierarchy : RoadClass) :
    copiedAttributes (DirectedEdgeBuilder k init way endnode forward length speed truck_speed use rc
      localidx signal stop_sign yield_sign minor restrictions bike_network reclass_ferry
      rc_hierarchy) =
      (way.toll, way.truck_route, way.dismount, way.use_sidepath, way.sac_scale,
        way.surface, way.tunnel, way.roundabout, way.bridge, way.indoor, way.link,
        way.hov_type, way.sidewalk_left, way.sidewalk_right, way.lit,
        way.destination_only_hgv, signal, stop_sign, yield_sign, minor, rc, localidx,
        restrictions) ∧
    ∀ (forward' reclass_ferry' ferry' rail' : Bool) (length' : Nat),
      copiedAttributes
          (DirectedEdgeBuilder k init { way with ferry := ferry', rail := rail' } endnode
            forward' length' speed truck_speed use rc localidx signal stop_sign yield_sign
            minor restrictions bike_network reclass_ferry' rc_hierarchy) =
        copiedAttributes
          (DirectedEdgeBuilder k init way endnode forward length speed truck_speed use rc
            localidx signal stop_sign yield_sign minor restrictions bike_network
            reclass_ferry rc_hierarchy) := by
  refine ⟨DirectedEdgeBuilder_copiedAttributes _ _ _ _ _ _ _ _ _ _ _ _ _ _ _ _ _ _ _, ?_⟩
  intro forward' reclass_ferry' ferry' rail' length'
  rw [DirectedEdgeBuilder_copiedAttributes, DirectedEdgeBuilder_copiedAttributes]

/-- C19: the two directed edges of one way have their masks swapped: the
forward-access mask of the record built with `forward = false` is the
reverse-access mask of the record built with `forward = true`, and the other
way round, wheelchair bit included. -/
theorem access_masks_swap_with_direction (k : GraphConstants)
    (init : DirectedEdge) (way : OSMWay)
    (endnode : GraphId) (length speed truck_speed : Nat)
    (use : Use) (rc : RoadClass) (localidx : Nat)
    (signal stop_sign yield_sign minor : Bool) (restrictions bike_network : Nat)
    (reclass_ferry : Bool) (rc_hierarchy : RoadClass) :
    (DirectedEdgeBuilder k init way endnode false length speed truck_speed use rc
        localidx signal stop_sign yield_sign minor restrictions bike_network reclass_ferry
        rc_hierarchy).forwardaccess =
      (DirectedEdgeBuilder k init way endnode true length speed truck_speed use rc
        localidx signal stop_sign yield_sign minor restrictions bike_network reclass_ferry
        rc_hierarchy).reverseaccess ∧
    (DirectedEdgeBuilder k init way endnode false length speed truck_speed use rc
        localidx signal stop_sign yield_sign minor restrictions bike_network reclass_ferry
        rc_hierarchy).reverseaccess =
      (DirectedEdgeBuilder k init way endnode true length speed truck_speed use rc
        localidx signal stop_sign yield_sign minor restrictions bike_network reclass_ferry
        rc_hierarchy).forwardaccess := by
  refine ⟨?_, ?_⟩ <;>
  simp only [DirectedEdgeBuilder, DirectedEdge.set_forwardaccess,
    DirectedEdge.set_reverseaccess, Bool.and_false, Bool.and_true, Bool.not_true,
    Bool.not_false, Bool.false_or, Bool.or_false] <;>
  split_ifs <;> rfl

/-- C20: the two use overrides run one after the other.  For a way flagged
ferry and rail whose use is not construction, the use of the built record is
rail-ferry, whatever the `use` argument is, while the same way with the rail
flag cleared gives ferry: the rail override, applied second, wins. -/
theorem rail_override_wins_over_ferry (k : GraphConstants)
    (init : DirectedEdge) (way : OSMWay)
    (endnode : GraphId) (forward : Bool) (length speed truck_speed : Nat)
    (use : Use) (rc : RoadClass) (localidx : Nat)
    (signal stop_sign yield_sign minor : Bool) (restrictions bike_network : Nat)
    (reclass_ferry : Bool) (rc_hierarchy : RoadClass)
    (hferry : way.ferry = true) (hrail : way.rail = true)
    (hway : way.use ≠ Use.kConstruction) :
    (DirectedEdgeBuilder k init way endnode forward length speed truck_speed use rc
        localidx signal stop_sign yield_sign minor restrictions bike_network reclass_ferry
        rc_hierarchy).use = Use.kRailFerry ∧
    (DirectedEdgeBuilder k init { way with rail := false } endnode forward length speed
        truck_speed use rc localidx signal stop_sign yield_sign minor restrictions
        bike_network reclass_ferry rc_hierarchy).use = Use.kFerry := by
  rw [DirectedEdgeBuilder_use, DirectedEdgeBuilder_use]
  refine ⟨?_, ?_⟩
  · simp [hrail, hway]
  · simp [hferry, hway]

/-- C20, on a sample way flagged ferry and rail, built with two different
`use` arguments. -/
theorem rail_override_wins_over_ferry_witness :
    (exampleBuild { exampleWay with ferry := true, rail := true } false 10 (Use.kOther 5)
        false).use = Use.kRailFerry ∧
    (exampleBuild { exampleWay with ferry := true, rail := true } false 10 Use.kFerry
        false).use = Use.kRailFerry :=
  ⟨(rail_override_wins_over_ferry exampleConstants exampleEdge
      { exampleWay with ferry := true, rail := true } 7 false 10 50 40 (Use.kOther 5) 3 1
      false false false false 0 0 false 8 rfl rfl (by decide)).1,
    (rail_override_wins_over_ferry exampleConstants exampleEdge
      { exampleWay with ferry := true, rail := true } 7 false 10 50 40 Use.kFerry 3 1
      false false false false 0 0 false 8 rfl rfl (by decide)).1⟩

end mjolnir

end valhalla

/-! Theorems: the costing factory. -/

namespace valhalla

namespace sif

/-- Looking up `key'` after `erase key`. -/
theorem Map.find_erase {K V : Type} [DecidableEq K] (m : Map K V) (key key' : K) :
    (m.erase key).find key' = if key = key' then none else m.find key' := by
  induction m with
  | nil => simp [Map.erase, Map.find]
  | cons e rest ih =>
    obtain ⟨a, v⟩ := e
    by_cases h1 : a = key
    · subst h1
      by_cases h2 : a = key'
      · subst h2
        simpa [Map.erase] using ih
      · simpa [Map.erase, Map.find, h2] using ih
    · by_cases h2 : a = key'
      · subst h2
        have h3 : ¬ key = a := fun h => h1 h.symm
        simp [Map.erase, h1, Map.find, h3]
      · simp [Map.erase, h1, Map.find, h2, ih]

/-- Looking up `key'` after `emplace key value`. -/
theorem Map.find_emplace {K V : Type} [DecidableEq K] (m : Map K V) (key key' : K) (value : V)
    (h : m.find key = none) :
    (m.emplace key value).find key' = if key = key' then some value else m.find key' := by
  simp [Map.emplace, h, Map.find]

/-- Looking up a type after `Register`: the registered function for the
registered type, the old binding for every other type. -/
theorem CostFactory.find_Register {Payload cost_ptr_t : Type}
    (f : CostFactory Payload cost_ptr_t) (costing : CostingType)
    (function : factory_function_t Payload cost_ptr_t) (key : CostingType) :
    (f.Register costing function).factory_funcs_.find key
      = if costing = key then some function else f.factory_funcs_.find key := by
  have h : (f.factory_funcs_.erase costing).find costing = none := by
    rw [Map.find_erase]; simp
  simp only [CostFactory.Register]
  rw [Map.find_emplace _ _ _ _ h, Map.find_erase]
  by_cases hk : costing = key <;> simp [hk]

/-- The number of entries for `key'` after `erase key`. -/
theorem Map.count_keys_erase {K V : Type} [DecidableEq K] (m : Map K V) (key key' : K) :
    (m.erase key).keys.count key' = if key = key' then 0 else m.keys.count key' := by
  induction m with
  | nil => simp [Map.erase, Map.keys]
  | cons e rest ih =>
    obtain ⟨a, v⟩ := e
    simp only [Map.keys] at ih
    by_cases h1 : a = key
    · subst h1
      by_cases h2 : a = key'
      · subst h2
        simpa [Map.erase, Map.keys] using ih
      · simpa [Map.erase, Map.keys, List.count_cons, h2] using ih
    · by_cases h2 : a = key'
      · subst h2
        have h3 : ¬ key = a := fun h => h1 h.symm
        simpa [Map.erase, Map.keys, h1, List.count_cons, h3] using ih
      · simp [Map.erase, Map.keys, h1, h2, ih, List.count_cons]

/-- The number of entries for a type after `Register`: one for the registered
type, what it was for every other type. -/
theorem CostFactory.count_keys_Register {Payload cost_ptr_t : Type}
    (f : CostFactory Payload cost_ptr_t) (costing : CostingType)
    (function : factory_function_t Payload cost_ptr_t) (key : CostingType) :
    (f.Register costing function).factory_funcs_.keys.count key
      = if costing = key then 1 else f.factory_funcs_.keys.count key := by
  have h : (f.factory_funcs_.erase costing).find costing = none := by
    rw [Map.find_erase]; simp
  have hc := Map.count_keys_erase f.factory_funcs_ costing key
  simp only [CostFactory.Register, Map.emplace, h]
  by_cases hk : costing = key
  · simp [hk, Map.keys, List.count_cons] at hc ⊢
    exact hc
  · simp [hk, Map.keys, List.count_cons] at hc ⊢
    exact hc

/-- Looking up a key in two lists of entries, one after the other. -/
theorem Map.find_append {K V : Type} [DecidableEq K] (m m' : Map K V) (key : K) :
    Map.find (m ++ m') key = (Map.find m key).orElse (fun _ => Map.find m' key) := by
  induction m with
  | nil => simp [Map.find]
  | cons e rest ih =>
    obtain ⟨a, v⟩ := e
    by_cases h : a = key
    · simp [Map.find, h]
    · simpa [Map.find, h] using ih

/-- The binding of a type after a sequence of `Register` calls: the function of
the most recent call for the type, the binding the factory had before the
calls when there is none. -/
theorem CostFactory.find_RegisterAll {Payload cost_ptr_t : Type}
    (calls : List (CostingType × factory_function_t Payload cost_ptr_t))
    (f : CostFactory Payload cost_ptr_t) (key : CostingType) :
    (f.RegisterAll calls).factory_funcs_.find key
      = (Map.find calls.reverse key).orElse (fun _ => f.factory_funcs_.find key) := by
  induction calls generalizing f with
  | nil => simp [CostFactory.RegisterAll, Map.find]
  | cons c rest ih =>
    have hstep : f.RegisterAll (c :: rest) = (f.Register c.1 c.2).RegisterAll rest := rfl
    rw [hstep, ih, CostFactory.find_Register, List.reverse_cons, Map.find_append]
    cases hrest : Map.find rest.reverse key with
    | some g => simp
    | none =>
      by_cases hk : c.1 = key
      · simp [Map.find, hk]
      · simp [Map.find, hk]

/-- Through a sequence of `Register` calls, a factory in which every type has
one binding when it is bound and none otherwise stays so. -/
theorem CostFactory.count_keys_RegisterAll {Payload cost_ptr_t : Type}
    (calls : List (CostingType × factory_function_t Payload cost_ptr_t))
    (f : CostFactory Payload cost_ptr_t) (key : CostingType)
    (h : f.factory_funcs_.keys.count key
      = if (f.factory_funcs_.find key).isSome then 1 else 0) :
    (f.RegisterAll calls).factory_funcs_.keys.count key
      = if ((f.RegisterAll calls).factory_funcs_.find key).isSome then 1 else 0 := by
  induction calls generalizing f with
  | nil => simpa [CostFactory.RegisterAll] using h
  | cons c rest ih =>
    have hstep : f.RegisterAll (c :: rest) = (f.Register c.1 c.2).RegisterAll rest := rfl
    rw [hstep]
    apply ih
    rw [CostFactory.count_keys_Register, CostFactory.find_Register]
    by_cases hk : c.1 = key
    · simp [hk]
    · simpa [hk] using h

/-- The empty map has no entry. -/
theorem Map.find_nil {K V : Type} [DecidableEq K] (key : K) :
    Map.find ([] : Map K V) key = none := rfl

/-- The empty map has no key. -/
theorem Map.count_keys_nil {K V : Type} [DecidableEq K] (key : K) :
    (Map.keys ([] : Map K V)).count key = 0 := rfl

/-- A fresh factory binds each of the twelve named costing types to its
built-in constructor, and binds nothing else. -/
theorem CostFactory.find_new {Payload cost_ptr_t : Type} (x : Externals Payload cost_ptr_t)
    (key : CostingType) :
    (CostFactory.new x).factory_funcs_.find key = CostFactory.builtin x key := by
  cases key <;>
    simp [CostFactory.new, CostFactory.find_Register, CostFactory.builtin, Map.find_nil]

/-- A fresh factory has one binding for a costing type it binds and none for
any other. -/
theorem CostFactory.count_keys_new {Payload cost_ptr_t : Type}
    (x : Externals Payload cost_ptr_t) (key : CostingType) :
    (CostFactory.new x).factory_funcs_.keys.count key
      = if ((CostFactory.new x).factory_funcs_.find key).isSome then 1 else 0 := by
  rw [CostFactory.find_new]
  cases key <;>
    simp [CostFactory.new, CostFactory.count_keys_Register, CostFactory.builtin,
      Map.count_keys_nil]

/-- C7 as stated fails: on a fresh factory, a request that selects `auto_` and
whose entry for `auto_` carries the type `bicycle` gets the bicycle
constructor, not the constructor registered for `auto_`. -/
theorem create_dispatch_counterexample :
    (exampleOptions CostingType.auto_ { type := CostingType.bicycle, payload := 5 }).costings.find
        (exampleOptions CostingType.auto_
          { type := CostingType.bicycle, payload := 5 }).costing_type
      = some { type := CostingType.bicycle, payload := 5 } ∧
    (CostFactory.new exampleExternals).factory_funcs_.find CostingType.auto_
      = some exampleExternals.CreateAutoCost ∧
    ((CostFactory.new exampleExternals).Create exampleExternals
        (exampleOptions CostingType.auto_
          { type := CostingType.bicycle, payload := 5 })).result
      = Except.ok "BicycleCost" ∧
    ((CostFactory.new exampleExternals).Create exampleExternals
        (exampleOptions CostingType.auto_
          { type := CostingType.bicycle, payload := 5 })).result
      ≠ exampleExternals.CreateAutoCost { type := CostingType.bicycle, payload := 5 } := by
  refine ⟨by simp [exampleOptions, Map.find], CostFactory.find_new exampleExternals _,
    ?_, ?_⟩ <;>
    simp [CostFactory.Create, CostFactory.Create_Costing, exampleOptions, Map.find,
      CostFactory.find_new, CostFactory.builtin, exampleExternals]

/-- C7, amended: when the options mapping of the request has the entry `e`
for the selected costing type and `fn` is the constructor registered for the
type field of `e` (the selected type when the entry agrees with its key),
`Create(request)` returns exactly `fn(e)`, and that call is the only
constructor call it makes. -/
theorem create_invokes_registered_constructor {Payload cost_ptr_t : Type}
    (x : Externals Payload cost_ptr_t) (f : CostFactory Payload cost_ptr_t)
    (options : Options Payload) (e : Costing Payload)
    (fn : factory_function_t Payload cost_ptr_t)
    (hentry : options.costings.find options.costing_type = some e)
    (hfn : f.factory_funcs_.find e.type = some fn) :
    f.Create x options = { result := fn e, invoked := [(fn, e)] } := by
  simp [CostFactory.Create, CostFactory.Create_Costing, hentry, hfn]

/-- C7, amended, on a fresh factory and a request that selects `auto_` with an
`auto_` entry: the call returns what `CreateAutoCost` returns on the entry. -/
theorem create_invokes_registered_constructor_witness :
    (CostFactory.new exampleExternals).Create exampleExternals
        (exampleOptions CostingType.auto_ { type := CostingType.auto_, payload := 5 })
      = { result := Except.ok "AutoCost",
          invoked := [(exampleExternals.CreateAutoCost,
            { type := CostingType.auto_, payload := 5 })] } :=
  create_invokes_registered_constructor exampleExternals (CostFactory.new exampleExternals)
    (exampleOptions CostingType.auto_ { type := CostingType.auto_, payload := 5 })
    { type := CostingType.auto_, payload := 5 } exampleExternals.CreateAutoCost
    (by simp [exampleOptions, Map.find])
    (CostFactory.find_new exampleExternals CostingType.auto_)

/-- C8: after any sequence of `Register` calls on a fresh factory, every
costing type is bound to the function of the most recent call for it, or, when
there was no call for it, to what the constructor bound it to (the built-in
constructor for each of the twelve named types, nothing for a value outside
them), and a bound type has exactly one binding.  `Register` is total; on any
factory, `Register(T, f)` followed by `Register(T, g)` leaves one binding for
`T`, and `Create` for `T` then returns what `g` returns, with the call of `g`
as the only constructor call. -/
theorem register_latest_binding_wins {Payload cost_ptr_t : Type}
    (x : Externals Payload cost_ptr_t) :
    (∀ (calls : List (CostingType × factory_function_t Payload cost_ptr_t))
        (T : CostingType),
      ((CostFactory.new x).RegisterAll calls).factory_funcs_.find T
          = (Map.find calls.reverse T).orElse (fun _ => CostFactory.builtin x T) ∧
      ((CostFactory.new x).RegisterAll calls).factory_funcs_.keys.count T
          = if (((CostFactory.new x).RegisterAll calls).factory_funcs_.find T).isSome
            then 1 else 0) ∧
    CostingType.named.map (CostFactory.builtin x)
      = [some x.CreateAutoCost, some x.CreateBicycleCost, some x.CreateBusCost,
         some x.CreateTaxiCost, some x.CreateMotorScooterCost, some x.CreateMotorcycleCost,
         some x.CreatePedestrianCost, some x.CreateTruckCost, some x.CreateTransitCost,
         some x.CreateNoCost, some x.CreateNoCost, some x.CreateBikeShareCost] ∧
    (∀ (f0 : CostFactory Payload cost_ptr_t) (T : CostingType)
        (f g : factory_function_t Payload cost_ptr_t),
      ((f0.Register T f).Register T g).factory_funcs_.find T = some g ∧
      ((f0.Register T f).Register T g).factory_funcs_.keys.count T = 1 ∧
      ((f0.Register T f).Register T g).Create_Type x T
          = { result := g (x.default_costing.set_type T),
              invoked := [(g, x.default_costing.set_type T)] } ∧
      ∀ p : Payload,
        ((f0.Register T f).Register T g).Create_Costing x { type := T, payload := p }
          = { result := g { type := T, payload := p },
              invoked := [(g, { type := T, payload := p })] }) := by
  refine ⟨?_, rfl, ?_⟩
  · intro calls T
    refine ⟨?_, CostFactory.count_keys_RegisterAll calls _ T (CostFactory.count_keys_new x T)⟩
    rw [CostFactory.find_RegisterAll, CostFactory.find_new]
  · intro f0 T f g
    have hfind : ((f0.Register T f).Register T g).factory_funcs_.find T = some g := by
      rw [CostFactory.find_Register]; simp
    refine ⟨hfind, ?_, ?_, ?_⟩
    · rw [CostFactory.count_keys_Register]; simp
    · simp [CostFactory.Create_Type, CostFactory.Create_Costing, Costing.set_type, hfind]
    · intro p
      simp [CostFactory.Create_Costing, hfind]

/-- C9: when the options mapping of the request has no entry for the selected
costing type, `Create(request)` throws "No costing options provided to cost
factory" and calls no constructor, whatever the registry holds. -/
theorem create_without_options_entry_fails {Payload cost_ptr_t : Type}
    (x : Externals Payload cost_ptr_t) (f : CostFactory Payload cost_ptr_t)
    (options : Options Payload)
    (hentry : options.costings.find options.costing_type = none) :
    f.Create x options
      = { result := Except.error
            (Exception.runtime_error "No costing options provided to cost factory"),
          invoked := [] } := by
  simp [CostFactory.Create, hentry]

/-- C9, on a fresh factory (which has a constructor for `auto_`) and a request
that selects `auto_` but carries an entry for `bicycle` only. -/
theorem create_without_options_entry_fails_witness :
    (exampleOptions CostingType.bicycle { type := CostingType.bicycle, payload := 5 }).costings.find
        (exampleOptions CostingType.bicycle
          { type := CostingType.bicycle, payload := 5 }).costing_type = none ∧
    (CostFactory.new exampleExternals).Create exampleExternals
        (exampleOptions CostingType.bicycle { type := CostingType.bicycle, payload := 5 })
      = { result := Except.error
            (Exception.runtime_error "No costing options provided to cost factory"),
          invoked := [] } :=
  ⟨by simp [exampleOptions, Map.find],
    create_without_options_entry_fails exampleExternals (CostFactory.new exampleExternals)
      (exampleOptions CostingType.bicycle { type := CostingType.bicycle, payload := 5 })
      (by simp [exampleOptions, Map.find])⟩

/-- C10 as stated fails: a fresh factory has no constructor for the type value
99, which is none of the twelve named types, yet a request that selects that
value and whose entry for it carries the type `bicycle` succeeds, through a
call of the bicycle constructor. -/
theorem unregistered_type_counterexample :
    (CostFactory.new exampleExternals).factory_funcs_.find (CostingType.unknown 99) = none ∧
    (exampleUnknownOptions { type := CostingType.bicycle, payload := 5 }).costing_type
      = CostingType.unknown 99 ∧
    (exampleUnknownOptions { type := CostingType.bicycle, payload := 5 }).costings.find
        (CostingType.unknown 99)
      = some { type := CostingType.bicycle, payload := 5 } ∧
    (CostFactory.new exampleExternals).Create exampleExternals
        (exampleUnknownOptions { type := CostingType.bicycle, payload := 5 })
      = { result := Except.ok "BicycleCost",
          invoked := [(exampleExternals.CreateBicycleCost,
            { type := CostingType.bicycle, payload := 5 })] } := by
  refine ⟨CostFactory.find_new exampleExternals _, rfl,
    by simp [exampleUnknownOptions, Map.find], ?_⟩
  simp [CostFactory.Create, CostFactory.Create_Costing, exampleUnknownOptions, Map.find,
    CostFactory.find_new, CostFactory.builtin, exampleExternals]

/-- C10, amended: when no constructor is registered for the type `T`,
`Create(T)` throws "No costing method found for" `T`, and so does
`Create(request)` for every request whose entry for the selected type carries
the type field `T`; neither calls a constructor. -/
theorem create_unregistered_type_fails {Payload cost_ptr_t : Type}
    (x : Externals Payload cost_ptr_t) (f : CostFactory Payload cost_ptr_t)
    (T : CostingType) (hnone : f.factory_funcs_.find T = none) :
    f.Create_Type x T
      = { result := Except.error (Exception.runtime_error
            ("No costing method found for '" ++ x.Costing_Enum_Name T ++ "'")),
          invoked := [] } ∧
    ∀ (options : Options Payload) (e : Costing Payload),
      options.costings.find options.costing_type = some e → e.type = T →
      f.Create x options
        = { result := Except.error (Exception.runtime_error
              ("No costing method found for '" ++ x.Costing_Enum_Name T ++ "'")),
            invoked := [] } := by
  refine ⟨?_, ?_⟩
  · simp [CostFactory.Create_Type, CostFactory.Create_Costing, Costing.set_type, hnone]
  · intro options e hentry htype
    subst htype
    simp [CostFactory.Create, CostFactory.Create_Costing, hentry, hnone]

/-- C10, amended, on a fresh factory and the type value 99, outside the twelve
named types: `Create(99)` fails, and so does a request that selects 99 with an
entry whose type field is 99. -/
theorem create_unregistered_type_fails_witness :
    (CostFactory.new exampleExternals).factory_funcs_.find (CostingType.unknown 99) = none ∧
    (CostFactory.new exampleExternals).Create_Type exampleExternals (CostingType.unknown 99)
      = { result := Except.error
            (Exception.runtime_error "No costing method found for 'costing'"),
          invoked := [] } ∧
    (CostFactory.new exampleExternals).Create exampleExternals
        (exampleUnknownOptions { type := CostingType.unknown 99, payload := 5 })
      = { result := Except.error
            (Exception.runtime_error "No costing method found for 'costing'"),
          invoked := [] } :=
  ⟨CostFactory.find_new exampleExternals _,
    (create_unregistered_type_fails exampleExternals (CostFactory.new exampleExternals)
      (CostingType.unknown 99) (CostFactory.find_new exampleExternals _)).1,
    (create_unregistered_type_fails exampleExternals (CostFactory.new exampleExternals)
      (CostingType.unknown 99) (CostFactory.find_new exampleExternals _)).2
      (exampleUnknownOptions { type := CostingType.unknown 99, payload := 5 })
      { type := CostingType.unknown 99, payload := 5 }
      (by simp [exampleUnknownOptions, Map.find]) rfl⟩

/-- The loop of `CreateModeCosting` runs to its end when every costing it
visits has an options entry whose constructor is registered and succeeds with
a strategy that reports a travel mode the table has a slot for. -/
theorem CostFactory.CreateModeCosting_loop_returns {Payload cost_ptr_t : Type}
    (x : Externals Payload cost_ptr_t) (travel_mode : cost_ptr_t → TravelMode)
    (ordinal : TravelMode → Nat)
    (f : CostFactory Payload cost_ptr_t) (options : Options Payload)
    (costings : List CostingType) (capacity : Nat)
    (h : ∀ c ∈ costings, ∃ (e : Costing Payload) (fn : factory_function_t Payload cost_ptr_t)
      (cost : cost_ptr_t), options.costings.find c = some e ∧
        f.factory_funcs_.find e.type = some fn ∧ fn e = Except.ok cost ∧
        ordinal (travel_mode cost) < capacity)
    (mode_costing : mode_costing_t cost_ptr_t) (hcap : mode_costing.slots.length = capacity)
    (mode : TravelMode) :
    ∃ (t : mode_costing_t cost_ptr_t) (m : TravelMode),
      f.CreateModeCosting_loop x travel_mode ordinal options costings mode_costing mode
        = Ending.returns t m := by
  induction costings generalizing mode_costing mode with
  | nil => exact ⟨mode_costing, mode, rfl⟩
  | cons c rest ih =>
    obtain ⟨e, fn, cost, hentry, hfn, hok, hslot⟩ := h c (List.mem_cons_self c rest)
    have hrest := ih (fun c' hc' => h c' (List.mem_cons_of_mem c hc'))
      { slots := mode_costing.slots.set (ordinal (travel_mode cost)) (some cost) }
      (by simpa using hcap) (travel_mode cost)
    simpa [CostFactory.CreateModeCosting_loop, CostFactory.Create_Costing, hentry, hfn, hok,
      mode_costing_t.set, hcap, hslot] using hrest

/-- A strategy that reports the sentinel `kMaxTravelMode` has no slot in the
table: the assignment of line 107 goes outside the table and the loop has no
defined behaviour. -/
theorem CostFactory.CreateModeCosting_loop_sentinel {Payload cost_ptr_t : Type}
    (x : Externals Payload cost_ptr_t) (travel_mode : cost_ptr_t → TravelMode)
    (ordinal : TravelMode → Nat)
    (f : CostFactory Payload cost_ptr_t) (options : Options Payload)
    (c : CostingType) (rest : List CostingType) (e : Costing Payload)
    (fn : factory_function_t Payload cost_ptr_t) (cost : cost_ptr_t)
    (hentry : options.costings.find c = some e)
    (hfn : f.factory_funcs_.find e.type = some fn)
    (hok : fn e = Except.ok cost)
    (hmode : travel_mode cost = TravelMode.kMaxTravelMode) :
    f.CreateModeCosting_loop x travel_mode ordinal options (c :: rest)
        (mode_costing_t.empty (ordinal TravelMode.kMaxTravelMode)) TravelMode.kMaxTravelMode
      = Ending.undefined := by
  simp [CostFactory.CreateModeCosting_loop, CostFactory.Create_Costing, mode_costing_t.set,
    mode_costing_t.empty, hentry, hfn, hok, hmode]

/-- C11: for a request whose costing type is multimodal, transit or bikeshare,
whenever `CreateModeCosting` returns, the mode it returns is pedestrian,
whatever the constructed strategies report; and it does return, with
pedestrian, when the type has a list of required costings, each of them has an
options entry, and the constructor of each entry is registered and succeeds
with a strategy that reports a known travel mode (one the table has a slot
for). -/
theorem multimodal_active_mode_is_pedestrian {Payload cost_ptr_t : Type}
    (x : Externals Payload cost_ptr_t) (travel_mode : cost_ptr_t → TravelMode)
    (ordinal : TravelMode → Nat)
    (kCostingTypeMapping : Map CostingType (List CostingType))
    (f : CostFactory Payload cost_ptr_t) (options : Options Payload)
    (htype : options.costing_type = CostingType.multimodal ∨
      options.costing_type = CostingType.transit ∨
      options.costing_type = CostingType.bikeshare) :
    (∀ (t : mode_costing_t cost_ptr_t) (m : TravelMode),
      f.CreateModeCosting x travel_mode ordinal kCostingTypeMapping options
        = Ending.returns t m →
      m = TravelMode.kPedestrian) ∧
    (∀ costings : List CostingType,
      kCostingTypeMapping.find options.costing_type = some costings →
      (∀ c ∈ costings, ∃ (e : Costing Payload) (fn : factory_function_t Payload cost_ptr_t)
        (cost : cost_ptr_t), options.costings.find c = some e ∧
          f.factory_funcs_.find e.type = some fn ∧ fn e = Except.ok cost ∧
          ordinal (travel_mode cost) < ordinal TravelMode.kMaxTravelMode) →
      ∃ t : mode_costing_t cost_ptr_t,
        f.CreateModeCosting x travel_mode ordinal kCostingTypeMapping options
          = Ending.returns t TravelMode.kPedestrian) := by
  refine ⟨?_, ?_⟩
  · intro t m hret
    unfold CostFactory.CreateModeCosting at hret
    cases hmap : kCostingTypeMapping.find options.costing_type with
    | none => simp [hmap] at hret
    | some costings =>
      cases hloop : f.CreateModeCosting_loop x travel_mode ordinal options costings
          (mode_costing_t.empty (ordinal TravelMode.kMaxTravelMode))
          TravelMode.kMaxTravelMode with
      | undefined => simp [hmap, hloop] at hret
      | throws e m' => simp [hmap, hloop] at hret
      | returns t' m' =>
        simp [hmap, hloop, htype] at hret
        exact hret.2.symm
  · intro costings hmap hall
    obtain ⟨t, m, hloop⟩ := CostFactory.CreateModeCosting_loop_returns x travel_mode ordinal
      f options costings (ordinal TravelMode.kMaxTravelMode) hall
      (mode_costing_t.empty (ordinal TravelMode.kMaxTravelMode))
      (by simp [mode_costing_t.empty]) TravelMode.kMaxTravelMode
    refine ⟨t, ?_⟩
    simp [CostFactory.CreateModeCosting, hmap, hloop, htype]

/-- C11, on a fresh factory and a bikeshare request whose one required costing
is `bicycle`: the only constructed strategy reports another mode, and the call
returns with pedestrian. -/
theorem multimodal_active_mode_is_pedestrian_witness :
    exampleTravelMode "BicycleCost" = TravelMode.kOther 2 ∧
    ∃ t : mode_costing_t String,
      (CostFactory.new exampleExternals).CreateModeCosting exampleExternals exampleTravelMode
          exampleOrdinal exampleMapping (exampleModeOptions CostingType.bikeshare)
        = Ending.returns t TravelMode.kPedestrian :=
  ⟨by decide,
    (multimodal_active_mode_is_pedestrian exampleExternals exampleTravelMode exampleOrdinal
      exampleMapping (CostFactory.new exampleExternals)
      (exampleModeOptions CostingType.bikeshare)
      (Or.inr (Or.inr rfl))).2 [CostingType.bicycle]
      (by simp [exampleMapping, exampleModeOptions, Map.find])
      (by
        intro c hc
        simp only [List.mem_singleton] at hc
        subst hc
        exact ⟨{ type := CostingType.bicycle, payload := 4 }, exampleExternals.CreateBicycleCost,
          "BicycleCost", by simp [exampleModeOptions, Map.find],
          CostFactory.find_new exampleExternals CostingType.bicycle, rfl, by decide⟩)⟩

/-- C12: for a request whose costing type is not multimodal, transit or
bikeshare and needs the single costing `c`, with an options entry `e` for `c`
whose constructor is registered and returns the strategy `cost`, `cost`
reporting a known travel mode (one the table has a slot for):
`CreateModeCosting` returns a table that holds `cost` in the slot of the mode
that `cost` reports and nothing in any other slot, and the mode it returns is
that reported mode. -/
theorem single_mode_costing {Payload cost_ptr_t : Type}
    (x : Externals Payload cost_ptr_t) (travel_mode : cost_ptr_t → TravelMode)
    (ordinal : TravelMode → Nat)
    (kCostingTypeMapping : Map CostingType (List CostingType))
    (f : CostFactory Payload cost_ptr_t) (options : Options Payload)
    (c : CostingType) (e : Costing Payload) (fn : factory_function_t Payload cost_ptr_t)
    (cost : cost_ptr_t)
    (htype : ¬ (options.costing_type = CostingType.multimodal ∨
      options.costing_type = CostingType.transit ∨
      options.costing_type = CostingType.bikeshare))
    (hmap : kCostingTypeMapping.find options.costing_type = some [c])
    (hentry : options.costings.find c = some e)
    (hfn : f.factory_funcs_.find e.type = some fn)
    (hok : fn e = Except.ok cost)
    (hslot : ordinal (travel_mode cost) < ordinal TravelMode.kMaxTravelMode) :
    ∃ t : mode_costing_t cost_ptr_t,
      f.CreateModeCosting x travel_mode ordinal kCostingTypeMapping options
        = Ending.returns t (travel_mode cost) ∧
      t.slots.length = ordinal TravelMode.kMaxTravelMode ∧
      t.slot (ordinal (travel_mode cost)) = some cost ∧
      ∀ i : Nat, i ≠ ordinal (travel_mode cost) → t.slot i = none := by
  have hmode : travel_mode cost ≠ TravelMode.kMaxTravelMode := by
    intro h
    rw [h] at hslot
    exact Nat.lt_irrefl _ hslot
  refine ⟨mode_costing_t.mk
    (List.set (List.replicate (ordinal TravelMode.kMaxTravelMode) none)
      (ordinal (travel_mode cost)) (some cost)), ?_, ?_, ?_, ?_⟩
  · simp [CostFactory.CreateModeCosting, CostFactory.CreateModeCosting_loop,
      CostFactory.Create_Costing, mode_costing_t.set, mode_costing_t.empty, hmap, hentry,
      hfn, hok, htype, hmode, hslot]
  · simp
  · simp [mode_costing_t.slot, List.getD_eq_getElem?_getD, List.getElem?_set, hslot]
  · intro i hi
    simp only [mode_costing_t.slot, List.getD_eq_getElem?_getD, List.getElem?_set]
    by_cases hlt : i < ordinal TravelMode.kMaxTravelMode
    · simp [Ne.symm hi, hlt]
    · simp [Ne.symm hi, hlt]

/-- C12, on a fresh factory and a car request: the table of four slots holds
the car strategy in slot 0, the slot of the mode it reports, and nothing else,
and that mode is returned. -/
theorem single_mode_costing_witness :
    exampleTravelMode "AutoCost" = TravelMode.kOther 0 ∧
    exampleOrdinal (TravelMode.kOther 0) = 0 ∧
    ∃ t : mode_costing_t String,
      (CostFactory.new exampleExternals).CreateModeCosting exampleExternals exampleTravelMode
          exampleOrdinal exampleMapping (exampleModeOptions CostingType.auto_)
        = Ending.returns t (TravelMode.kOther 0) ∧
      t.slots.length = 4 ∧
      t.slot 0 = some "AutoCost" ∧
      ∀ i : Nat, i ≠ 0 → t.slot i = none :=
  ⟨by decide, rfl,
    single_mode_costing exampleExternals exampleTravelMode exampleOrdinal exampleMapping
      (CostFactory.new exampleExternals) (exampleModeOptions CostingType.auto_)
      CostingType.auto_ { type := CostingType.auto_, payload := 1 }
      exampleExternals.CreateAutoCost "AutoCost"
      (by simp [exampleModeOptions])
      (by simp [exampleMapping, exampleModeOptions, Map.find])
      (by simp [exampleModeOptions, Map.find])
      (CostFactory.find_new exampleExternals CostingType.auto_) rfl (by decide)⟩

/-- C13: `CreateModeCosting` never returns with the sentinel `kMaxTravelMode`
as the mode; when the loop over the required costings has run to its end and
the mode, after the pedestrian forcing of the multimodal types, is still the
sentinel, the call throws "couldn't find a valid TravelMode"; so it does for
a type that is not multimodal, transit or bikeshare and needs no costing. -/
theorem no_return_without_travel_mode {Payload cost_ptr_t : Type}
    (x : Externals Payload cost_ptr_t) (travel_mode : cost_ptr_t → TravelMode)
    (ordinal : TravelMode → Nat)
    (kCostingTypeMapping : Map CostingType (List CostingType))
    (f : CostFactory Payload cost_ptr_t) (options : Options Payload) :
    (∀ (t : mode_costing_t cost_ptr_t) (m : TravelMode),
      f.CreateModeCosting x travel_mode ordinal kCostingTypeMapping options
        = Ending.returns t m →
      m ≠ TravelMode.kMaxTravelMode) ∧
    (∀ (costings : List CostingType) (t : mode_costing_t cost_ptr_t) (m : TravelMode),
      kCostingTypeMapping.find options.costing_type = some costings →
      f.CreateModeCosting_loop x travel_mode ordinal options costings
        (mode_costing_t.empty (ordinal TravelMode.kMaxTravelMode))
        TravelMode.kMaxTravelMode = Ending.returns t m →
      (if options.costing_type = CostingType.multimodal ∨
          options.costing_type = CostingType.transit ∨
          options.costing_type = CostingType.bikeshare
        then TravelMode.kPedestrian else m) = TravelMode.kMaxTravelMode →
      f.CreateModeCosting x travel_mode ordinal kCostingTypeMapping options
        = Ending.throws
            (Exception.runtime_error
              ("sif::CostFactory couldn't find a valid TravelMode for " ++
                x.Costing_Enum_Name options.costing_type))
            TravelMode.kMaxTravelMode) ∧
    (¬ (options.costing_type = CostingType.multimodal ∨
        options.costing_type = CostingType.transit ∨
        options.costing_type = CostingType.bikeshare) →
      kCostingTypeMapping.find options.costing_type = some [] →
      f.CreateModeCosting x travel_mode ordinal kCostingTypeMapping options
        = Ending.throws
            (Exception.runtime_error
              ("sif::CostFactory couldn't find a valid TravelMode for " ++
                x.Costing_Enum_Name options.costing_type))
            TravelMode.kMaxTravelMode) := by
  refine ⟨?_, ?_, ?_⟩
  · intro t m hret
    unfold CostFactory.CreateModeCosting at hret
    cases hmap : kCostingTypeMapping.find options.costing_type with
    | none => simp [hmap] at hret
    | some costings =>
      cases hloop : f.CreateModeCosting_loop x travel_mode ordinal options costings
          (mode_costing_t.empty (ordinal TravelMode.kMaxTravelMode))
          TravelMode.kMaxTravelMode with
      | undefined => simp [hmap, hloop] at hret
      | throws e m' => simp [hmap, hloop] at hret
      | returns t' m' =>
        simp only [hmap, hloop] at hret
        split_ifs at hret with h1 h2 h2
        · cases hret
          decide
        · cases hret
          exact h2
  · intro costings t m hmap hloop hmode
    simp only [CostFactory.CreateModeCosting, hmap, hloop, hmode, if_true]
  · intro htype hmap
    simp [CostFactory.CreateModeCosting, CostFactory.CreateModeCosting_loop, hmap, htype]

/-- C13, on a fresh factory and a `none_` request, whose type needs no costing
in the sample table: the call throws. -/
theorem no_return_without_travel_mode_witness :
    (CostFactory.new exampleExternals).CreateModeCosting exampleExternals exampleTravelMode
        exampleOrdinal exampleMapping (exampleModeOptions CostingType.none_)
      = Ending.throws
          (Exception.runtime_error
            "sif::CostFactory couldn't find a valid TravelMode for costing")
          TravelMode.kMaxTravelMode :=
  (no_return_without_travel_mode exampleExternals exampleTravelMode exampleOrdinal
    exampleMapping (CostFactory.new exampleExternals)
    (exampleModeOptions CostingType.none_)).2.2
    (by simp [exampleModeOptions])
    (by simp [exampleMapping, exampleModeOptions, Map.find])

/-- C17: `Create(T)` gives exactly the outcome of creating from the options
value that carries only the type `T` and is otherwise default, through
`Create(const Costing&)` or through `Create(const Options&)` on a request that
selects `T` and holds that value as its one entry: the strategy of the
constructor registered for `T` on that value, the error when there is none.
On a fresh factory it reaches, for every one of the twelve named costing
types, the built-in constructor of the type and returns what that constructor
returns; it fails for a value outside the twelve. -/
theorem create_default_overload {Payload cost_ptr_t : Type}
    (x : Externals Payload cost_ptr_t) (f : CostFactory Payload cost_ptr_t)
    (T : CostingType) :
    f.Create_Type x T = f.Create_Type_spec x T ∧
    f.Create_Type x T
      = f.Create_Costing x { type := T, payload := x.default_costing.payload } ∧
    f.Create_Type x T
      = f.Create x
          { costing_type := T,
            costings := [(T, { type := T, payload := x.default_costing.payload })] } ∧
    (CostFactory.new x).Create_Type x T
      = (match CostFactory.builtin x T with
        | some fn =>
          { result := fn { type := T, payload := x.default_costing.payload },
            invoked := [(fn, { type := T, payload := x.default_costing.payload })] }
        | none =>
          { result := Except.error (Exception.runtime_error
              ("No costing method found for '" ++ x.Costing_Enum_Name T ++ "'")),
            invoked := [] }) ∧
    CostingType.named.map (CostFactory.builtin x)
      = [some x.CreateAutoCost, some x.CreateBicycleCost, some x.CreateBusCost,
         some x.CreateTaxiCost, some x.CreateMotorScooterCost, some x.CreateMotorcycleCost,
         some x.CreatePedestrianCost, some x.CreateTruckCost, some x.CreateTransitCost,
         some x.CreateNoCost, some x.CreateNoCost, some x.CreateBikeShareCost] := by
  refine ⟨?_, rfl, ?_, ?_, rfl⟩
  · cases h : f.factory_funcs_.find T <;>
      simp [CostFactory.Create_Type, CostFactory.Create_Type_spec, CostFactory.Create_Costing,
        Costing.set_type, h]
  · simp [CostFactory.Create_Type, CostFactory.Create, Costing.set_type, Map.find]
  · cases h : CostFactory.builtin x T <;>
      simp [CostFactory.Create_Type, CostFactory.Create_Costing, Costing.set_type,
        CostFactory.find_new, h]

end sif

end valhalla
